import Mathlib

set_option maxRecDepth 8000

namespace AdkAgent

/-
Shallow embedding of src/adk_test/agent.py: the embedded OpenAPI document
(lines 55-749), the module-level startup (lines 32-798), and the async demo
loop (lines 801-863). A JSON push-down parser is defined so that properties
of the embedded document string can be established by evaluation.
-/

/-- JSON abstract syntax. A number is represented as
`mantissa * 10 ^ (-exponent10)`. -/
inductive Json where
  | null
  | bool (b : Bool)
  | num (mantissa : Int) (exponent10 : Int)
  | str (s : String)
  | arr (items : List Json)
  | obj (members : List (String × Json))

/-- Value of a hexadecimal digit, if any. -/
def hexVal (c : Char) : Option Nat :=
  if '0' ≤ c && c ≤ '9' then some (c.toNat - 48)
  else if 'a' ≤ c && c ≤ 'f' then some (c.toNat - 87)
  else if 'A' ≤ c && c ≤ 'F' then some (c.toNat - 55)
  else none

/-- Is `c` an ASCII decimal digit? -/
def isDigitChar (c : Char) : Bool := '0' ≤ c && c ≤ '9'

/-- Is `c` JSON whitespace? -/
def isWsChar (c : Char) : Bool :=
  c == ' ' || c == '\n' || c == '\t' || c == '\x0d'

/-- Split off a maximal run of leading digits. -/
def takeDigits : List Char → List Char × List Char
  | [] => ([], [])
  | c :: cs =>
    if isDigitChar c then
      let r := takeDigits cs
      (c :: r.1, r.2)
    else ([], c :: cs)

/-- Numeric value of a digit run. -/
def digitsVal (ds : List Char) : Nat :=
  ds.foldl (fun a c => a * 10 + (c.toNat - 48)) 0

/-- Interpret a complete character run as a JSON number per the JSON grammar
(optional minus sign, integer part with no leading zero, optional fraction,
optional exponent); `none` if the run is not a well-formed JSON number. -/
def numFromChars (cs0 : List Char) : Option Json :=
  let sgn := match cs0 with
    | c :: r => if c == '-' then (true, r) else (false, cs0)
    | [] => (false, cs0)
  match takeDigits sgn.2 with
  | ([], _) => none
  | (ids, cs2) =>
    if ids.length > 1 && ids.head? == some '0' then none
    else
      let fr := match cs2 with
        | c :: r =>
          if c == '.' then
            match takeDigits r with
            | ([], _) => none
            | (fds, cs3) => some (fds, cs3)
          else some (([] : List Char), cs2)
        | [] => some (([] : List Char), cs2)
      match fr with
      | none => none
      | some (fds, cs3) =>
        let ex := match cs3 with
          | c :: r =>
            if c == 'e' || c == 'E' then
              let q := match r with
                | s :: r2 =>
                  if s == '-' then (true, r2)
                  else if s == '+' then (false, r2)
                  else (false, r)
                | [] => (false, r)
              match takeDigits q.2 with
              | ([], _) => none
              | (eds, cs4) => some (q.1, digitsVal eds, cs4)
            else some (false, 0, cs3)
          | [] => some (false, 0, cs3)
        match ex with
        | none => none
        | some (eneg, expVal, cs4) =>
          match cs4 with
          | _ :: _ => none
          | [] =>
            let mAbs : Nat := digitsVal ids * 10 ^ fds.length + digitsVal fds
            let m : Int := if sgn.1 then - (mAbs : Int) else (mAbs : Int)
            let e10 : Int := (fds.length : Int) - (if eneg then - (expVal : Int) else (expVal : Int))
            some (.num m e10)

/-- One open bracket of a JSON parse: an array with the items collected so far
(in reverse), or an object with the members collected so far (in reverse) and
the key whose value is pending, if any. -/
inductive Frame where
  | arrF (done : List Json)
  | objF (done : List (String × Json)) (curKey : Option String)

/-- Scanner mode of the JSON push-down parser. -/
inductive PMode where
  | value
  | inStr (isKey : Bool) (acc : List Char)
  | inStrEsc (isKey : Bool) (acc : List Char)
  | inStrU (isKey : Bool) (acc : List Char) (need : Nat) (val : Nat)
  | inNum (acc : List Char)
  | inKeyword (pending : List Char) (v : Json)
  | afterValue
  | afterKey (key : String)
  | expectKeyOrEnd
  | expectKey
  | fail

/-- State of the JSON push-down parser: the scanner mode, the stack of open
brackets, and the completed root value once the top-level value has closed. -/
structure PState where
  mode : PMode
  stack : List Frame
  root : Option Json

/-- The state a completed value `v` leads to: append it to the enclosing
array or object, or record it as the root. -/
def pushValue (v : Json) (st : PState) : PState :=
  match st.stack with
  | [] => { st with mode := .afterValue, root := some v }
  | .arrF done :: rest =>
    { st with mode := .afterValue, stack := .arrF (v :: done) :: rest }
  | .objF done (some k) :: rest =>
    { st with mode := .afterValue, stack := .objF ((k, v) :: done) none :: rest }
  | .objF _ none :: _ => { st with mode := .fail }

/-- Process one character in every mode except number accumulation. -/
def stepMain (st : PState) (c : Char) : PState :=
  match st.mode with
  | .value =>
    if isWsChar c then st
    else if c == '"' then { st with mode := .inStr false [] }
    else if c == '-' || isDigitChar c then { st with mode := .inNum [c] }
    else if c == '[' then { st with mode := .value, stack := .arrF [] :: st.stack }
    else if c == ']' then
      match st.stack with
      | .arrF [] :: rest => pushValue (.arr []) { st with stack := rest }
      | _ => { st with mode := .fail }
    else if c == '\x7b' then { st with mode := .expectKeyOrEnd, stack := .objF [] none :: st.stack }
    else if c == 't' then { st with mode := .inKeyword ['r', 'u', 'e'] (.bool true) }
    else if c == 'f' then { st with mode := .inKeyword ['a', 'l', 's', 'e'] (.bool false) }
    else if c == 'n' then { st with mode := .inKeyword ['u', 'l', 'l'] .null }
    else { st with mode := .fail }
  | .inStr isKey acc =>
    if c == '"' then
      if isKey then { st with mode := .afterKey (String.mk acc.reverse) }
      else pushValue (.str (String.mk acc.reverse)) st
    else if c == '\\' then { st with mode := .inStrEsc isKey acc }
    else if 32 ≤ c.toNat then { st with mode := .inStr isKey (c :: acc) }
    else { st with mode := .fail }
  | .inStrEsc isKey acc =>
    if c == '"' then { st with mode := .inStr isKey ('"' :: acc) }
    else if c == '\\' then { st with mode := .inStr isKey ('\\' :: acc) }
    else if c == '/' then { st with mode := .inStr isKey ('/' :: acc) }
    else if c == 'b' then { st with mode := .inStr isKey (Char.ofNat 8 :: acc) }
    else if c == 'f' then { st with mode := .inStr isKey (Char.ofNat 12 :: acc) }
    else if c == 'n' then { st with mode := .inStr isKey ('\n' :: acc) }
    else if c == 'r' then { st with mode := .inStr isKey (Char.ofNat 13 :: acc) }
    else if c == 't' then { st with mode := .inStr isKey ('\t' :: acc) }
    else if c == 'u' then { st with mode := .inStrU isKey acc 4 0 }
    else { st with mode := .fail }
  | .inStrU isKey acc need val =>
    match hexVal c with
    | some d =>
      match need with
      | 1 => { st with mode := .inStr isKey (Char.ofNat (val * 16 + d) :: acc) }
      | n + 1 => { st with mode := .inStrU isKey acc n (val * 16 + d) }
      | 0 => { st with mode := .fail }
    | none => { st with mode := .fail }
  | .inKeyword pending v =>
    match pending with
    | p :: ps =>
      if c == p then
        match ps with
        | [] => pushValue v st
        | _ :: _ => { st with mode := .inKeyword ps v }
      else { st with mode := .fail }
    | [] => { st with mode := .fail }
  | .afterValue =>
    if isWsChar c then st
    else if c == ',' then
      match st.stack with
      | .arrF _ :: _ => { st with mode := .value }
      | .objF _ none :: _ => { st with mode := .expectKey }
      | _ => { st with mode := .fail }
    else if c == ']' then
      match st.stack with
      | .arrF done :: rest => pushValue (.arr done.reverse) { st with stack := rest }
      | _ => { st with mode := .fail }
    else if c == '\x7d' then
      match st.stack with
      | .objF done none :: rest => pushValue (.obj done.reverse) { st with stack := rest }
      | _ => { st with mode := .fail }
    else { st with mode := .fail }
  | .afterKey k =>
    if isWsChar c then st
    else if c == ':' then
      match st.stack with
      | .objF done none :: rest =>
        { st with mode := .value, stack := .objF done (some k) :: rest }
      | _ => { st with mode := .fail }
    else { st with mode := .fail }
  | .expectKeyOrEnd =>
    if isWsChar c then st
    else if c == '"' then { st with mode := .inStr true [] }
    else if c == '\x7d' then
      match st.stack with
      | .objF [] none :: rest => pushValue (.obj []) { st with stack := rest }
      | _ => { st with mode := .fail }
    else { st with mode := .fail }
  | .expectKey =>
    if isWsChar c then st
    else if c == '"' then { st with mode := .inStr true [] }
    else { st with mode := .fail }
  | .inNum _ => { st with mode := .fail }
  | .fail => st

/-- Is `c` a character that may extend a number run? -/
def isNumChar (c : Char) : Bool :=
  isDigitChar c || c == '-' || c == '+' || c == '.' || c == 'e' || c == 'E'

/-- Process one character of a JSON document. -/
def jstep (st : PState) (c : Char) : PState :=
  match st.mode with
  | .inNum acc =>
    if isNumChar c then { st with mode := .inNum (c :: acc) }
    else
      match numFromChars acc.reverse with
      | some v => stepMain (pushValue v st) c
      | none => { st with mode := .fail }
  | _ => stepMain st c

/-- The parser state before any input. -/
def initPState : PState := { mode := .value, stack := [], root := none }

/-- Extract the parsed document at end of input, if the parse succeeded. -/
def finishParse (st : PState) : Option Json :=
  match st.mode with
  | .afterValue => match st.stack with | [] => st.root | _ => none
  | .inNum acc =>
    match st.stack with
    | [] =>
      match numFromChars acc.reverse with
      | some v => (pushValue v st).root
      | none => none
    | _ => none
  | _ => none

/-- Run the JSON push-down parser over a whole string. -/
def parseJson (s : String) : Option Json :=
  finishParse (s.data.foldl jstep initPState)

/-
The embedded OpenAPI document (agent.py lines 55-749), split into chunks of
at most 400 characters at line boundaries so that the parse of each chunk
stays within kernel reduction depth; `openapi_spec_string` is their exact
concatenation.
-/

/-- Chunk 0 of the embedded OpenAPI document string. -/
def specChunk0 : String :=
  "\n\x7b\n  \"openapi\": \"3.0.3\",\n  \"info\": \x7b\n    \"title\": \"ReqRes API\",\n    \"description\": \"A hosted REST-API ready to respond to your AJAX requests. Free fake REST API for testing and prototyping.\",\n    \"version\": \"1.0.0\",\n    \"contact\": \x7b\n      \"name\": \"ReqRes\",\n      \"url\": \"https://reqres.in\"\n    \x7d,\n    \"license\": \x7b\n      \"name\": \"MIT\",\n      \"url\": \"https://opensource.org/licenses/MIT\"\n    \x7d\n  \x7d,\n"

/-- Chunk 1 of the embedded OpenAPI document string. -/
def specChunk1 : String :=
  "  \"servers\": [\n    \x7b\n      \"url\": \"https://reqres.in/api\",\n      \"description\": \"ReqRes.in API server\"\n    \x7d\n  ],\n  \"paths\": \x7b\n    \"/users\": \x7b\n      \"get\": \x7b\n        \"summary\": \"List Users\",\n        \"description\": \"Get a paginated list of users\",\n        \"tags\": [\"Users\"],\n        \"parameters\": [\n          \x7b\n            \"name\": \"page\",\n            \"in\": \"query\",\n            \"required\": false,\n"

/-- Chunk 2 of the embedded OpenAPI document string. -/
def specChunk2 : String :=
  "            \"description\": \"Page number (default: 1)\",\n            \"schema\": \x7b\n              \"type\": \"integer\",\n              \"minimum\": 1,\n              \"default\": 1\n            \x7d\n          \x7d,\n          \x7b\n            \"name\": \"per_page\",\n            \"in\": \"query\",\n            \"required\": false,\n            \"description\": \"Number of users per page (default: 6)\",\n            \"schema\": \x7b\n"

/-- Chunk 3 of the embedded OpenAPI document string. -/
def specChunk3 : String :=
  "              \"type\": \"integer\",\n              \"minimum\": 1,\n              \"maximum\": 12,\n              \"default\": 6\n            \x7d\n          \x7d\n        ],\n        \"responses\": \x7b\n          \"200\": \x7b\n            \"description\": \"Success\",\n            \"content\": \x7b\n              \"application/json\": \x7b\n                \"schema\": \x7b\n                  \"$ref\": \"#/components/schemas/UsersListResponse\"\n"

/-- Chunk 4 of the embedded OpenAPI document string. -/
def specChunk4 : String :=
  "                \x7d\n              \x7d\n            \x7d\n          \x7d\n        \x7d\n      \x7d,\n      \"post\": \x7b\n        \"summary\": \"Create User\",\n        \"description\": \"Create a new user\",\n        \"tags\": [\"Users\"],\n        \"requestBody\": \x7b\n          \"required\": true,\n          \"content\": \x7b\n            \"application/json\": \x7b\n              \"schema\": \x7b\n"

/-- Chunk 5 of the embedded OpenAPI document string. -/
def specChunk5 : String :=
  "                \"$ref\": \"#/components/schemas/CreateUserRequest\"\n              \x7d\n            \x7d\n          \x7d\n        \x7d,\n        \"responses\": \x7b\n          \"201\": \x7b\n            \"description\": \"User created successfully\",\n            \"content\": \x7b\n              \"application/json\": \x7b\n                \"schema\": \x7b\n                  \"$ref\": \"#/components/schemas/CreateUserResponse\"\n                \x7d\n"

/-- Chunk 6 of the embedded OpenAPI document string. -/
def specChunk6 : String :=
  "              \x7d\n            \x7d\n          \x7d\n        \x7d\n      \x7d\n    \x7d,\n    \"/users/\x7bid\x7d\": \x7b\n      \"get\": \x7b\n        \"summary\": \"Get Single User\",\n        \"description\": \"Get a single user by ID\",\n        \"tags\": [\"Users\"],\n        \"parameters\": [\n          \x7b\n            \"name\": \"id\",\n            \"in\": \"path\",\n            \"required\": true,\n            \"description\": \"User ID\",\n            \"schema\": \x7b\n"

/-- Chunk 7 of the embedded OpenAPI document string. -/
def specChunk7 : String :=
  "              \"type\": \"integer\"\n            \x7d\n          \x7d\n        ],\n        \"responses\": \x7b\n          \"200\": \x7b\n            \"description\": \"Success\",\n            \"content\": \x7b\n              \"application/json\": \x7b\n                \"schema\": \x7b\n                  \"$ref\": \"#/components/schemas/SingleUserResponse\"\n                \x7d\n              \x7d\n            \x7d\n          \x7d,\n          \"404\": \x7b\n"

/-- Chunk 8 of the embedded OpenAPI document string. -/
def specChunk8 : String :=
  "            \"description\": \"User not found\",\n            \"content\": \x7b\n              \"application/json\": \x7b\n                \"schema\": \x7b\n                  \"$ref\": \"#/components/schemas/ErrorResponse\"\n                \x7d\n              \x7d\n            \x7d\n          \x7d\n        \x7d\n      \x7d,\n      \"put\": \x7b\n        \"summary\": \"Update User\",\n        \"description\": \"Update an existing user\",\n"

/-- Chunk 9 of the embedded OpenAPI document string. -/
def specChunk9 : String :=
  "        \"tags\": [\"Users\"],\n        \"parameters\": [\n          \x7b\n            \"name\": \"id\",\n            \"in\": \"path\",\n            \"required\": true,\n            \"description\": \"User ID\",\n            \"schema\": \x7b\n              \"type\": \"integer\"\n            \x7d\n          \x7d\n        ],\n        \"requestBody\": \x7b\n          \"required\": true,\n          \"content\": \x7b\n            \"application/json\": \x7b\n"

/-- Chunk 10 of the embedded OpenAPI document string. -/
def specChunk10 : String :=
  "              \"schema\": \x7b\n                \"$ref\": \"#/components/schemas/UpdateUserRequest\"\n              \x7d\n            \x7d\n          \x7d\n        \x7d,\n        \"responses\": \x7b\n          \"200\": \x7b\n            \"description\": \"User updated successfully\",\n            \"content\": \x7b\n              \"application/json\": \x7b\n                \"schema\": \x7b\n                  \"$ref\": \"#/components/schemas/UpdateUserResponse\"\n"

/-- Chunk 11 of the embedded OpenAPI document string. -/
def specChunk11 : String :=
  "                \x7d\n              \x7d\n            \x7d\n          \x7d\n        \x7d\n      \x7d,\n      \"patch\": \x7b\n        \"summary\": \"Partial Update User\",\n        \"description\": \"Partially update an existing user\",\n        \"tags\": [\"Users\"],\n        \"parameters\": [\n          \x7b\n            \"name\": \"id\",\n            \"in\": \"path\",\n            \"required\": true,\n            \"description\": \"User ID\",\n"

/-- Chunk 12 of the embedded OpenAPI document string. -/
def specChunk12 : String :=
  "            \"schema\": \x7b\n              \"type\": \"integer\"\n            \x7d\n          \x7d\n        ],\n        \"requestBody\": \x7b\n          \"required\": true,\n          \"content\": \x7b\n            \"application/json\": \x7b\n              \"schema\": \x7b\n                \"$ref\": \"#/components/schemas/UpdateUserRequest\"\n              \x7d\n            \x7d\n          \x7d\n        \x7d,\n        \"responses\": \x7b\n          \"200\": \x7b\n"

/-- Chunk 13 of the embedded OpenAPI document string. -/
def specChunk13 : String :=
  "            \"description\": \"User updated successfully\",\n            \"content\": \x7b\n              \"application/json\": \x7b\n                \"schema\": \x7b\n                  \"$ref\": \"#/components/schemas/UpdateUserResponse\"\n                \x7d\n              \x7d\n            \x7d\n          \x7d\n        \x7d\n      \x7d,\n      \"delete\": \x7b\n        \"summary\": \"Delete User\",\n        \"description\": \"Delete a user by ID\",\n"

/-- Chunk 14 of the embedded OpenAPI document string. -/
def specChunk14 : String :=
  "        \"tags\": [\"Users\"],\n        \"parameters\": [\n          \x7b\n            \"name\": \"id\",\n            \"in\": \"path\",\n            \"required\": true,\n            \"description\": \"User ID\",\n            \"schema\": \x7b\n              \"type\": \"integer\"\n            \x7d\n          \x7d\n        ],\n        \"responses\": \x7b\n          \"204\": \x7b\n            \"description\": \"User deleted successfully\"\n          \x7d\n        \x7d\n"

/-- Chunk 15 of the embedded OpenAPI document string. -/
def specChunk15 : String :=
  "      \x7d\n    \x7d,\n    \"/unknown\": \x7b\n      \"get\": \x7b\n        \"summary\": \"List Resources\",\n        \"description\": \"Get a list of unknown resources (colors)\",\n        \"tags\": [\"Resources\"],\n        \"parameters\": [\n          \x7b\n            \"name\": \"page\",\n            \"in\": \"query\",\n            \"required\": false,\n            \"description\": \"Page number\",\n            \"schema\": \x7b\n"

/-- Chunk 16 of the embedded OpenAPI document string. -/
def specChunk16 : String :=
  "              \"type\": \"integer\",\n              \"minimum\": 1,\n              \"default\": 1\n            \x7d\n          \x7d\n        ],\n        \"responses\": \x7b\n          \"200\": \x7b\n            \"description\": \"Success\",\n            \"content\": \x7b\n              \"application/json\": \x7b\n                \"schema\": \x7b\n                  \"$ref\": \"#/components/schemas/ResourcesListResponse\"\n                \x7d\n              \x7d\n"

/-- Chunk 17 of the embedded OpenAPI document string. -/
def specChunk17 : String :=
  "            \x7d\n          \x7d\n        \x7d\n      \x7d\n    \x7d,\n    \"/unknown/\x7bid\x7d\": \x7b\n      \"get\": \x7b\n        \"summary\": \"Get Single Resource\",\n        \"description\": \"Get a single resource by ID\",\n        \"tags\": [\"Resources\"],\n        \"parameters\": [\n          \x7b\n            \"name\": \"id\",\n            \"in\": \"path\",\n            \"required\": true,\n            \"description\": \"Resource ID\",\n            \"schema\": \x7b\n"

/-- Chunk 18 of the embedded OpenAPI document string. -/
def specChunk18 : String :=
  "              \"type\": \"integer\"\n            \x7d\n          \x7d\n        ],\n        \"responses\": \x7b\n          \"200\": \x7b\n            \"description\": \"Success\",\n            \"content\": \x7b\n              \"application/json\": \x7b\n                \"schema\": \x7b\n                  \"$ref\": \"#/components/schemas/SingleResourceResponse\"\n                \x7d\n              \x7d\n            \x7d\n          \x7d,\n          \"404\": \x7b\n"

/-- Chunk 19 of the embedded OpenAPI document string. -/
def specChunk19 : String :=
  "            \"description\": \"Resource not found\",\n            \"content\": \x7b\n              \"application/json\": \x7b\n                \"schema\": \x7b\n                  \"$ref\": \"#/components/schemas/ErrorResponse\"\n                \x7d\n              \x7d\n            \x7d\n          \x7d\n        \x7d\n      \x7d\n    \x7d,\n    \"/register\": \x7b\n      \"post\": \x7b\n        \"summary\": \"Register User\",\n"

/-- Chunk 20 of the embedded OpenAPI document string. -/
def specChunk20 : String :=
  "        \"description\": \"Register a new user account\",\n        \"tags\": [\"Authentication\"],\n        \"requestBody\": \x7b\n          \"required\": true,\n          \"content\": \x7b\n            \"application/json\": \x7b\n              \"schema\": \x7b\n                \"$ref\": \"#/components/schemas/RegisterRequest\"\n              \x7d\n            \x7d\n          \x7d\n        \x7d,\n        \"responses\": \x7b\n          \"200\": \x7b\n"

/-- Chunk 21 of the embedded OpenAPI document string. -/
def specChunk21 : String :=
  "            \"description\": \"Registration successful\",\n            \"content\": \x7b\n              \"application/json\": \x7b\n                \"schema\": \x7b\n                  \"$ref\": \"#/components/schemas/RegisterResponse\"\n                \x7d\n              \x7d\n            \x7d\n          \x7d,\n          \"400\": \x7b\n            \"description\": \"Registration failed\",\n            \"content\": \x7b\n              \"application/json\": \x7b\n"

/-- Chunk 22 of the embedded OpenAPI document string. -/
def specChunk22 : String :=
  "                \"schema\": \x7b\n                  \"$ref\": \"#/components/schemas/ErrorResponse\"\n                \x7d\n              \x7d\n            \x7d\n          \x7d\n        \x7d\n      \x7d\n    \x7d,\n    \"/login\": \x7b\n      \"post\": \x7b\n        \"summary\": \"Login User\",\n        \"description\": \"Authenticate user and get token\",\n        \"tags\": [\"Authentication\"],\n        \"requestBody\": \x7b\n          \"required\": true,\n"

/-- Chunk 23 of the embedded OpenAPI document string. -/
def specChunk23 : String :=
  "          \"content\": \x7b\n            \"application/json\": \x7b\n              \"schema\": \x7b\n                \"$ref\": \"#/components/schemas/LoginRequest\"\n              \x7d\n            \x7d\n          \x7d\n        \x7d,\n        \"responses\": \x7b\n          \"200\": \x7b\n            \"description\": \"Login successful\",\n            \"content\": \x7b\n              \"application/json\": \x7b\n                \"schema\": \x7b\n"

/-- Chunk 24 of the embedded OpenAPI document string. -/
def specChunk24 : String :=
  "                  \"$ref\": \"#/components/schemas/LoginResponse\"\n                \x7d\n              \x7d\n            \x7d\n          \x7d,\n          \"400\": \x7b\n            \"description\": \"Login failed\",\n            \"content\": \x7b\n              \"application/json\": \x7b\n                \"schema\": \x7b\n                  \"$ref\": \"#/components/schemas/ErrorResponse\"\n                \x7d\n              \x7d\n            \x7d\n          \x7d\n"

/-- Chunk 25 of the embedded OpenAPI document string. -/
def specChunk25 : String :=
  "        \x7d\n      \x7d\n    \x7d,\n    \"/users/\x7bdelay\x7d\": \x7b\n      \"get\": \x7b\n        \"summary\": \"Delayed Response\",\n        \"description\": \"Get users list with artificial delay (for testing purposes)\",\n        \"tags\": [\"Testing\"],\n        \"parameters\": [\n          \x7b\n            \"name\": \"delay\",\n            \"in\": \"path\",\n            \"required\": true,\n            \"description\": \"Delay in seconds\",\n"

/-- Chunk 26 of the embedded OpenAPI document string. -/
def specChunk26 : String :=
  "            \"schema\": \x7b\n              \"type\": \"integer\",\n              \"minimum\": 1\n            \x7d\n          \x7d\n        ],\n        \"responses\": \x7b\n          \"200\": \x7b\n            \"description\": \"Success with delay\",\n            \"content\": \x7b\n              \"application/json\": \x7b\n                \"schema\": \x7b\n                  \"$ref\": \"#/components/schemas/UsersListResponse\"\n                \x7d\n"

/-- Chunk 27 of the embedded OpenAPI document string. -/
def specChunk27 : String :=
  "              \x7d\n            \x7d\n          \x7d\n        \x7d\n      \x7d\n    \x7d\n  \x7d,\n  \"components\": \x7b\n    \"schemas\": \x7b\n      \"User\": \x7b\n        \"type\": \"object\",\n        \"properties\": \x7b\n          \"id\": \x7b\n            \"type\": \"integer\",\n            \"description\": \"User ID\"\n          \x7d,\n          \"email\": \x7b\n            \"type\": \"string\",\n            \"format\": \"email\",\n"

/-- Chunk 28 of the embedded OpenAPI document string. -/
def specChunk28 : String :=
  "            \"description\": \"User email address\"\n          \x7d,\n          \"first_name\": \x7b\n            \"type\": \"string\",\n            \"description\": \"User first name\"\n          \x7d,\n          \"last_name\": \x7b\n            \"type\": \"string\",\n            \"description\": \"User last name\"\n          \x7d,\n          \"avatar\": \x7b\n            \"type\": \"string\",\n            \"format\": \"uri\",\n"

/-- Chunk 29 of the embedded OpenAPI document string. -/
def specChunk29 : String :=
  "            \"description\": \"User avatar URL\"\n          \x7d\n        \x7d\n      \x7d,\n      \"Resource\": \x7b\n        \"type\": \"object\",\n        \"properties\": \x7b\n          \"id\": \x7b\n            \"type\": \"integer\",\n            \"description\": \"Resource ID\"\n          \x7d,\n          \"name\": \x7b\n            \"type\": \"string\",\n            \"description\": \"Resource name\"\n          \x7d,\n          \"year\": \x7b\n"

/-- Chunk 30 of the embedded OpenAPI document string. -/
def specChunk30 : String :=
  "            \"type\": \"integer\",\n            \"description\": \"Resource year\"\n          \x7d,\n          \"color\": \x7b\n            \"type\": \"string\",\n            \"description\": \"Resource color code\"\n          \x7d,\n          \"pantone_value\": \x7b\n            \"type\": \"string\",\n            \"description\": \"Pantone color value\"\n          \x7d\n        \x7d\n      \x7d,\n      \"Support\": \x7b\n        \"type\": \"object\",\n"

/-- Chunk 31 of the embedded OpenAPI document string. -/
def specChunk31 : String :=
  "        \"properties\": \x7b\n          \"url\": \x7b\n            \"type\": \"string\",\n            \"format\": \"uri\",\n            \"description\": \"Support URL\"\n          \x7d,\n          \"text\": \x7b\n            \"type\": \"string\",\n            \"description\": \"Support text\"\n          \x7d\n        \x7d\n      \x7d,\n      \"UsersListResponse\": \x7b\n        \"type\": \"object\",\n        \"properties\": \x7b\n          \"page\": \x7b\n"

/-- Chunk 32 of the embedded OpenAPI document string. -/
def specChunk32 : String :=
  "            \"type\": \"integer\",\n            \"description\": \"Current page number\"\n          \x7d,\n          \"per_page\": \x7b\n            \"type\": \"integer\",\n            \"description\": \"Number of items per page\"\n          \x7d,\n          \"total\": \x7b\n            \"type\": \"integer\",\n            \"description\": \"Total number of items\"\n          \x7d,\n          \"total_pages\": \x7b\n            \"type\": \"integer\",\n"

/-- Chunk 33 of the embedded OpenAPI document string. -/
def specChunk33 : String :=
  "            \"description\": \"Total number of pages\"\n          \x7d,\n          \"data\": \x7b\n            \"type\": \"array\",\n            \"items\": \x7b\n              \"$ref\": \"#/components/schemas/User\"\n            \x7d\n          \x7d,\n          \"support\": \x7b\n            \"$ref\": \"#/components/schemas/Support\"\n          \x7d\n        \x7d\n      \x7d,\n      \"SingleUserResponse\": \x7b\n        \"type\": \"object\",\n        \"properties\": \x7b\n"

/-- Chunk 34 of the embedded OpenAPI document string. -/
def specChunk34 : String :=
  "          \"data\": \x7b\n            \"$ref\": \"#/components/schemas/User\"\n          \x7d,\n          \"support\": \x7b\n            \"$ref\": \"#/components/schemas/Support\"\n          \x7d\n        \x7d\n      \x7d,\n      \"ResourcesListResponse\": \x7b\n        \"type\": \"object\",\n        \"properties\": \x7b\n          \"page\": \x7b\n            \"type\": \"integer\",\n            \"description\": \"Current page number\"\n          \x7d,\n"

/-- Chunk 35 of the embedded OpenAPI document string. -/
def specChunk35 : String :=
  "          \"per_page\": \x7b\n            \"type\": \"integer\",\n            \"description\": \"Number of items per page\"\n          \x7d,\n          \"total\": \x7b\n            \"type\": \"integer\",\n            \"description\": \"Total number of items\"\n          \x7d,\n          \"total_pages\": \x7b\n            \"type\": \"integer\",\n            \"description\": \"Total number of pages\"\n          \x7d,\n          \"data\": \x7b\n"

/-- Chunk 36 of the embedded OpenAPI document string. -/
def specChunk36 : String :=
  "            \"type\": \"array\",\n            \"items\": \x7b\n              \"$ref\": \"#/components/schemas/Resource\"\n            \x7d\n          \x7d,\n          \"support\": \x7b\n            \"$ref\": \"#/components/schemas/Support\"\n          \x7d\n        \x7d\n      \x7d,\n      \"SingleResourceResponse\": \x7b\n        \"type\": \"object\",\n        \"properties\": \x7b\n          \"data\": \x7b\n            \"$ref\": \"#/components/schemas/Resource\"\n"

/-- Chunk 37 of the embedded OpenAPI document string. -/
def specChunk37 : String :=
  "          \x7d,\n          \"support\": \x7b\n            \"$ref\": \"#/components/schemas/Support\"\n          \x7d\n        \x7d\n      \x7d,\n      \"CreateUserRequest\": \x7b\n        \"type\": \"object\",\n        \"required\": [\"name\", \"job\"],\n        \"properties\": \x7b\n          \"name\": \x7b\n            \"type\": \"string\",\n            \"description\": \"User name\"\n          \x7d,\n          \"job\": \x7b\n            \"type\": \"string\",\n"

/-- Chunk 38 of the embedded OpenAPI document string. -/
def specChunk38 : String :=
  "            \"description\": \"User job title\"\n          \x7d\n        \x7d\n      \x7d,\n      \"CreateUserResponse\": \x7b\n        \"type\": \"object\",\n        \"properties\": \x7b\n          \"name\": \x7b\n            \"type\": \"string\",\n            \"description\": \"User name\"\n          \x7d,\n          \"job\": \x7b\n            \"type\": \"string\",\n            \"description\": \"User job title\"\n          \x7d,\n          \"id\": \x7b\n"

/-- Chunk 39 of the embedded OpenAPI document string. -/
def specChunk39 : String :=
  "            \"type\": \"string\",\n            \"description\": \"Generated user ID\"\n          \x7d,\n          \"createdAt\": \x7b\n            \"type\": \"string\",\n            \"format\": \"date-time\",\n            \"description\": \"Creation timestamp\"\n          \x7d\n        \x7d\n      \x7d,\n      \"UpdateUserRequest\": \x7b\n        \"type\": \"object\",\n        \"properties\": \x7b\n          \"name\": \x7b\n            \"type\": \"string\",\n"

/-- Chunk 40 of the embedded OpenAPI document string. -/
def specChunk40 : String :=
  "            \"description\": \"User name\"\n          \x7d,\n          \"job\": \x7b\n            \"type\": \"string\",\n            \"description\": \"User job title\"\n          \x7d\n        \x7d\n      \x7d,\n      \"UpdateUserResponse\": \x7b\n        \"type\": \"object\",\n        \"properties\": \x7b\n          \"name\": \x7b\n            \"type\": \"string\",\n            \"description\": \"User name\"\n          \x7d,\n          \"job\": \x7b\n"

/-- Chunk 41 of the embedded OpenAPI document string. -/
def specChunk41 : String :=
  "            \"type\": \"string\",\n            \"description\": \"User job title\"\n          \x7d,\n          \"updatedAt\": \x7b\n            \"type\": \"string\",\n            \"format\": \"date-time\",\n            \"description\": \"Update timestamp\"\n          \x7d\n        \x7d\n      \x7d,\n      \"RegisterRequest\": \x7b\n        \"type\": \"object\",\n        \"required\": [\"email\", \"password\"],\n        \"properties\": \x7b\n          \"email\": \x7b\n"

/-- Chunk 42 of the embedded OpenAPI document string. -/
def specChunk42 : String :=
  "            \"type\": \"string\",\n            \"format\": \"email\",\n            \"description\": \"User email address\"\n          \x7d,\n          \"password\": \x7b\n            \"type\": \"string\",\n            \"description\": \"User password\"\n          \x7d\n        \x7d\n      \x7d,\n      \"RegisterResponse\": \x7b\n        \"type\": \"object\",\n        \"properties\": \x7b\n          \"id\": \x7b\n            \"type\": \"integer\",\n"

/-- Chunk 43 of the embedded OpenAPI document string. -/
def specChunk43 : String :=
  "            \"description\": \"User ID\"\n          \x7d,\n          \"token\": \x7b\n            \"type\": \"string\",\n            \"description\": \"Authentication token\"\n          \x7d\n        \x7d\n      \x7d,\n      \"LoginRequest\": \x7b\n        \"type\": \"object\",\n        \"required\": [\"email\", \"password\"],\n        \"properties\": \x7b\n          \"email\": \x7b\n            \"type\": \"string\",\n            \"format\": \"email\",\n"

/-- Chunk 44 of the embedded OpenAPI document string. -/
def specChunk44 : String :=
  "            \"description\": \"User email address\"\n          \x7d,\n          \"password\": \x7b\n            \"type\": \"string\",\n            \"description\": \"User password\"\n          \x7d\n        \x7d\n      \x7d,\n      \"LoginResponse\": \x7b\n        \"type\": \"object\",\n        \"properties\": \x7b\n          \"token\": \x7b\n            \"type\": \"string\",\n            \"description\": \"Authentication token\"\n          \x7d\n        \x7d\n      \x7d,\n"

/-- Chunk 45 of the embedded OpenAPI document string. -/
def specChunk45 : String :=
  "      \"ErrorResponse\": \x7b\n        \"type\": \"object\",\n        \"properties\": \x7b\n          \"error\": \x7b\n            \"type\": \"string\",\n            \"description\": \"Error message\"\n          \x7d\n        \x7d\n      \x7d\n    \x7d\n  \x7d\n\x7d\n"

/-- The literal OpenAPI document embedded at lines 55-749 of agent.py. -/
def openapi_spec_string : String :=
  specChunk0 ++ specChunk1 ++ specChunk2 ++ specChunk3 ++ specChunk4 ++ specChunk5 ++ specChunk6 ++ specChunk7 ++ specChunk8 ++ specChunk9 ++ specChunk10 ++ specChunk11 ++ specChunk12 ++ specChunk13 ++ specChunk14 ++ specChunk15 ++ specChunk16 ++ specChunk17 ++ specChunk18 ++ specChunk19 ++ specChunk20 ++ specChunk21 ++ specChunk22 ++ specChunk23 ++ specChunk24 ++ specChunk25 ++ specChunk26 ++ specChunk27 ++ specChunk28 ++ specChunk29 ++ specChunk30 ++ specChunk31 ++ specChunk32 ++ specChunk33 ++ specChunk34 ++ specChunk35 ++ specChunk36 ++ specChunk37 ++ specChunk38 ++ specChunk39 ++ specChunk40 ++ specChunk41 ++ specChunk42 ++ specChunk43 ++ specChunk44 ++ specChunk45

/-
Named subtrees of the parsed document, and the parser state after each
chunk; each stage equation is checked by evaluation.
-/

/-- Parsed subtree `specInfo` of the embedded document. -/
def specInfo : Json :=
  Json.obj [("title", Json.str "ReqRes API"), ("description", Json.str "A hosted REST-API ready to respond to your AJAX requests. Free fake REST API for testing and prototyping."), ("version", Json.str "1.0.0"), ("contact", Json.obj [("name", Json.str "ReqRes"), ("url", Json.str "https://reqres.in")]), ("license", Json.obj [("name", Json.str "MIT"), ("url", Json.str "https://opensource.org/licenses/MIT")])]

/-- Parsed subtree `specServers` of the embedded document. -/
def specServers : Json :=
  Json.arr [Json.obj [("url", Json.str "https://reqres.in/api"), ("description", Json.str "ReqRes.in API server")]]

/-- Parsed subtree `specPath_users` of the embedded document. -/
def specPath_users : Json :=
  Json.obj [("get", Json.obj [("summary", Json.str "List Users"), ("description", Json.str "Get a paginated list of users"), ("tags", Json.arr [Json.str "Users"]), ("parameters", Json.arr [Json.obj [("name", Json.str "page"), ("in", Json.str "query"), ("required", Json.bool false), ("description", Json.str "Page number (default: 1)"), ("schema", Json.obj [("type", Json.str "integer"), ("minimum", Json.num 1 0), ("default", Json.num 1 0)])], Json.obj [("name", Json.str "per_page"), ("in", Json.str "query"), ("required", Json.bool false), ("description", Json.str "Number of users per page (default: 6)"), ("schema", Json.obj [("type", Json.str "integer"), ("minimum", Json.num 1 0), ("maximum", Json.num 12 0), ("default", Json.num 6 0)])]]), ("responses", Json.obj [("200", Json.obj [("description", Json.str "Success"), ("content", Json.obj [("application/json", Json.obj [("schema", Json.obj [("$ref", Json.str "#/components/schemas/UsersListResponse")])])])])])]), ("post", Json.obj [("summary", Json.str "Create User"), ("description", Json.str "Create a new user"), ("tags", Json.arr [Json.str "Users"]), ("requestBody", Json.obj [("required", Json.bool true), ("content", Json.obj [("application/json", Json.obj [("schema", Json.obj [("$ref", Json.str "#/components/schemas/CreateUserRequest")])])])]), ("responses", Json.obj [("201", Json.obj [("description", Json.str "User created successfully"), ("content", Json.obj [("application/json", Json.obj [("schema", Json.obj [("$ref", Json.str "#/components/schemas/CreateUserResponse")])])])])])])]

/-- Parsed subtree `specPath_users_id` of the embedded document. -/
def specPath_users_id : Json :=
  Json.obj [("get", Json.obj [("summary", Json.str "Get Single User"), ("description", Json.str "Get a single user by ID"), ("tags", Json.arr [Json.str "Users"]), ("parameters", Json.arr [Json.obj [("name", Json.str "id"), ("in", Json.str "path"), ("required", Json.bool true), ("description", Json.str "User ID"), ("schema", Json.obj [("type", Json.str "integer")])]]), ("responses", Json.obj [("200", Json.obj [("description", Json.str "Success"), ("content", Json.obj [("application/json", Json.obj [("schema", Json.obj [("$ref", Json.str "#/components/schemas/SingleUserResponse")])])])]), ("404", Json.obj [("description", Json.str "User not found"), ("content", Json.obj [("application/json", Json.obj [("schema", Json.obj [("$ref", Json.str "#/components/schemas/ErrorResponse")])])])])])]), ("put", Json.obj [("summary", Json.str "Update User"), ("description", Json.str "Update an existing user"), ("tags", Json.arr [Json.str "Users"]), ("parameters", Json.arr [Json.obj [("name", Json.str "id"), ("in", Json.str "path"), ("required", Json.bool true), ("description", Json.str "User ID"), ("schema", Json.obj [("type", Json.str "integer")])]]), ("requestBody", Json.obj [("required", Json.bool true), ("content", Json.obj [("application/json", Json.obj [("schema", Json.obj [("$ref", Json.str "#/components/schemas/UpdateUserRequest")])])])]), ("responses", Json.obj [("200", Json.obj [("description", Json.str "User updated successfully"), ("content", Json.obj [("application/json", Json.obj [("schema", Json.obj [("$ref", Json.str "#/components/schemas/UpdateUserResponse")])])])])])]), ("patch", Json.obj [("summary", Json.str "Partial Update User"), ("description", Json.str "Partially update an existing user"), ("tags", Json.arr [Json.str "Users"]), ("parameters", Json.arr [Json.obj [("name", Json.str "id"), ("in", Json.str "path"), ("required", Json.bool true), ("description", Json.str "User ID"), ("schema", Json.obj [("type", Json.str "integer")])]]), ("requestBody", Json.obj [("required", Json.bool true), ("content", Json.obj [("application/json", Json.obj [("schema", Json.obj [("$ref", Json.str "#/components/schemas/UpdateUserRequest")])])])]), ("responses", Json.obj [("200", Json.obj [("description", Json.str "User updated successfully"), ("content", Json.obj [("application/json", Json.obj [("schema", Json.obj [("$ref", Json.str "#/components/schemas/UpdateUserResponse")])])])])])]), ("delete", Json.obj [("summary", Json.str "Delete User"), ("description", Json.str "Delete a user by ID"), ("tags", Json.arr [Json.str "Users"]), ("parameters", Json.arr [Json.obj [("name", Json.str "id"), ("in", Json.str "path"), ("required", Json.bool true), ("description", Json.str "User ID"), ("schema", Json.obj [("type", Json.str "integer")])]]), ("responses", Json.obj [("204", Json.obj [("description", Json.str "User deleted successfully")])])])]

/-- Parsed subtree `specPath_unknown` of the embedded document. -/
def specPath_unknown : Json :=
  Json.obj [("get", Json.obj [("summary", Json.str "List Resources"), ("description", Json.str "Get a list of unknown resources (colors)"), ("tags", Json.arr [Json.str "Resources"]), ("parameters", Json.arr [Json.obj [("name", Json.str "page"), ("in", Json.str "query"), ("required", Json.bool false), ("description", Json.str "Page number"), ("schema", Json.obj [("type", Json.str "integer"), ("minimum", Json.num 1 0), ("default", Json.num 1 0)])]]), ("responses", Json.obj [("200", Json.obj [("description", Json.str "Success"), ("content", Json.obj [("application/json", Json.obj [("schema", Json.obj [("$ref", Json.str "#/components/schemas/ResourcesListResponse")])])])])])])]

/-- Parsed subtree `specPath_unknown_id` of the embedded document. -/
def specPath_unknown_id : Json :=
  Json.obj [("get", Json.obj [("summary", Json.str "Get Single Resource"), ("description", Json.str "Get a single resource by ID"), ("tags", Json.arr [Json.str "Resources"]), ("parameters", Json.arr [Json.obj [("name", Json.str "id"), ("in", Json.str "path"), ("required", Json.bool true), ("description", Json.str "Resource ID"), ("schema", Json.obj [("type", Json.str "integer")])]]), ("responses", Json.obj [("200", Json.obj [("description", Json.str "Success"), ("content", Json.obj [("application/json", Json.obj [("schema", Json.obj [("$ref", Json.str "#/components/schemas/SingleResourceResponse")])])])]), ("404", Json.obj [("description", Json.str "Resource not found"), ("content", Json.obj [("application/json", Json.obj [("schema", Json.obj [("$ref", Json.str "#/components/schemas/ErrorResponse")])])])])])])]

/-- Parsed subtree `specPath_register` of the embedded document. -/
def specPath_register : Json :=
  Json.obj [("post", Json.obj [("summary", Json.str "Register User"), ("description", Json.str "Register a new user account"), ("tags", Json.arr [Json.str "Authentication"]), ("requestBody", Json.obj [("required", Json.bool true), ("content", Json.obj [("application/json", Json.obj [("schema", Json.obj [("$ref", Json.str "#/components/schemas/RegisterRequest")])])])]), ("responses", Json.obj [("200", Json.obj [("description", Json.str "Registration successful"), ("content", Json.obj [("application/json", Json.obj [("schema", Json.obj [("$ref", Json.str "#/components/schemas/RegisterResponse")])])])]), ("400", Json.obj [("description", Json.str "Registration failed"), ("content", Json.obj [("application/json", Json.obj [("schema", Json.obj [("$ref", Json.str "#/components/schemas/ErrorResponse")])])])])])])]

/-- Parsed subtree `specPath_login` of the embedded document. -/
def specPath_login : Json :=
  Json.obj [("post", Json.obj [("summary", Json.str "Login User"), ("description", Json.str "Authenticate user and get token"), ("tags", Json.arr [Json.str "Authentication"]), ("requestBody", Json.obj [("required", Json.bool true), ("content", Json.obj [("application/json", Json.obj [("schema", Json.obj [("$ref", Json.str "#/components/schemas/LoginRequest")])])])]), ("responses", Json.obj [("200", Json.obj [("description", Json.str "Login successful"), ("content", Json.obj [("application/json", Json.obj [("schema", Json.obj [("$ref", Json.str "#/components/schemas/LoginResponse")])])])]), ("400", Json.obj [("description", Json.str "Login failed"), ("content", Json.obj [("application/json", Json.obj [("schema", Json.obj [("$ref", Json.str "#/components/schemas/ErrorResponse")])])])])])])]

/-- Parsed subtree `specPath_users_delay` of the embedded document. -/
def specPath_users_delay : Json :=
  Json.obj [("get", Json.obj [("summary", Json.str "Delayed Response"), ("description", Json.str "Get users list with artificial delay (for testing purposes)"), ("tags", Json.arr [Json.str "Testing"]), ("parameters", Json.arr [Json.obj [("name", Json.str "delay"), ("in", Json.str "path"), ("required", Json.bool true), ("description", Json.str "Delay in seconds"), ("schema", Json.obj [("type", Json.str "integer"), ("minimum", Json.num 1 0)])]]), ("responses", Json.obj [("200", Json.obj [("description", Json.str "Success with delay"), ("content", Json.obj [("application/json", Json.obj [("schema", Json.obj [("$ref", Json.str "#/components/schemas/UsersListResponse")])])])])])])]

/-- Parsed subtree `specSchema_User` of the embedded document. -/
def specSchema_User : Json :=
  Json.obj [("type", Json.str "object"), ("properties", Json.obj [("id", Json.obj [("type", Json.str "integer"), ("description", Json.str "User ID")]), ("email", Json.obj [("type", Json.str "string"), ("format", Json.str "email"), ("description", Json.str "User email address")]), ("first_name", Json.obj [("type", Json.str "string"), ("description", Json.str "User first name")]), ("last_name", Json.obj [("type", Json.str "string"), ("description", Json.str "User last name")]), ("avatar", Json.obj [("type", Json.str "string"), ("format", Json.str "uri"), ("description", Json.str "User avatar URL")])])]

/-- Parsed subtree `specSchema_Resource` of the embedded document. -/
def specSchema_Resource : Json :=
  Json.obj [("type", Json.str "object"), ("properties", Json.obj [("id", Json.obj [("type", Json.str "integer"), ("description", Json.str "Resource ID")]), ("name", Json.obj [("type", Json.str "string"), ("description", Json.str "Resource name")]), ("year", Json.obj [("type", Json.str "integer"), ("description", Json.str "Resource year")]), ("color", Json.obj [("type", Json.str "string"), ("description", Json.str "Resource color code")]), ("pantone_value", Json.obj [("type", Json.str "string"), ("description", Json.str "Pantone color value")])])]

/-- Parsed subtree `specSchema_Support` of the embedded document. -/
def specSchema_Support : Json :=
  Json.obj [("type", Json.str "object"), ("properties", Json.obj [("url", Json.obj [("type", Json.str "string"), ("format", Json.str "uri"), ("description", Json.str "Support URL")]), ("text", Json.obj [("type", Json.str "string"), ("description", Json.str "Support text")])])]

/-- Parsed subtree `specSchema_UsersListResponse` of the embedded document. -/
def specSchema_UsersListResponse : Json :=
  Json.obj [("type", Json.str "object"), ("properties", Json.obj [("page", Json.obj [("type", Json.str "integer"), ("description", Json.str "Current page number")]), ("per_page", Json.obj [("type", Json.str "integer"), ("description", Json.str "Number of items per page")]), ("total", Json.obj [("type", Json.str "integer"), ("description", Json.str "Total number of items")]), ("total_pages", Json.obj [("type", Json.str "integer"), ("description", Json.str "Total number of pages")]), ("data", Json.obj [("type", Json.str "array"), ("items", Json.obj [("$ref", Json.str "#/components/schemas/User")])]), ("support", Json.obj [("$ref", Json.str "#/components/schemas/Support")])])]

/-- Parsed subtree `specSchema_SingleUserResponse` of the embedded document. -/
def specSchema_SingleUserResponse : Json :=
  Json.obj [("type", Json.str "object"), ("properties", Json.obj [("data", Json.obj [("$ref", Json.str "#/components/schemas/User")]), ("support", Json.obj [("$ref", Json.str "#/components/schemas/Support")])])]

/-- Parsed subtree `specSchema_ResourcesListResponse` of the embedded document. -/
def specSchema_ResourcesListResponse : Json :=
  Json.obj [("type", Json.str "object"), ("properties", Json.obj [("page", Json.obj [("type", Json.str "integer"), ("description", Json.str "Current page number")]), ("per_page", Json.obj [("type", Json.str "integer"), ("description", Json.str "Number of items per page")]), ("total", Json.obj [("type", Json.str "integer"), ("description", Json.str "Total number of items")]), ("total_pages", Json.obj [("type", Json.str "integer"), ("description", Json.str "Total number of pages")]), ("data", Json.obj [("type", Json.str "array"), ("items", Json.obj [("$ref", Json.str "#/components/schemas/Resource")])]), ("support", Json.obj [("$ref", Json.str "#/components/schemas/Support")])])]

/-- Parsed subtree `specSchema_SingleResourceResponse` of the embedded document. -/
def specSchema_SingleResourceResponse : Json :=
  Json.obj [("type", Json.str "object"), ("properties", Json.obj [("data", Json.obj [("$ref", Json.str "#/components/schemas/Resource")]), ("support", Json.obj [("$ref", Json.str "#/components/schemas/Support")])])]

/-- Parsed subtree `specSchema_CreateUserRequest` of the embedded document. -/
def specSchema_CreateUserRequest : Json :=
  Json.obj [("type", Json.str "object"), ("required", Json.arr [Json.str "name", Json.str "job"]), ("properties", Json.obj [("name", Json.obj [("type", Json.str "string"), ("description", Json.str "User name")]), ("job", Json.obj [("type", Json.str "string"), ("description", Json.str "User job title")])])]

/-- Parsed subtree `specSchema_CreateUserResponse` of the embedded document. -/
def specSchema_CreateUserResponse : Json :=
  Json.obj [("type", Json.str "object"), ("properties", Json.obj [("name", Json.obj [("type", Json.str "string"), ("description", Json.str "User name")]), ("job", Json.obj [("type", Json.str "string"), ("description", Json.str "User job title")]), ("id", Json.obj [("type", Json.str "string"), ("description", Json.str "Generated user ID")]), ("createdAt", Json.obj [("type", Json.str "string"), ("format", Json.str "date-time"), ("description", Json.str "Creation timestamp")])])]

/-- Parsed subtree `specSchema_UpdateUserRequest` of the embedded document. -/
def specSchema_UpdateUserRequest : Json :=
  Json.obj [("type", Json.str "object"), ("properties", Json.obj [("name", Json.obj [("type", Json.str "string"), ("description", Json.str "User name")]), ("job", Json.obj [("type", Json.str "string"), ("description", Json.str "User job title")])])]

/-- Parsed subtree `specSchema_UpdateUserResponse` of the embedded document. -/
def specSchema_UpdateUserResponse : Json :=
  Json.obj [("type", Json.str "object"), ("properties", Json.obj [("name", Json.obj [("type", Json.str "string"), ("description", Json.str "User name")]), ("job", Json.obj [("type", Json.str "string"), ("description", Json.str "User job title")]), ("updatedAt", Json.obj [("type", Json.str "string"), ("format", Json.str "date-time"), ("description", Json.str "Update timestamp")])])]

/-- Parsed subtree `specSchema_RegisterRequest` of the embedded document. -/
def specSchema_RegisterRequest : Json :=
  Json.obj [("type", Json.str "object"), ("required", Json.arr [Json.str "email", Json.str "password"]), ("properties", Json.obj [("email", Json.obj [("type", Json.str "string"), ("format", Json.str "email"), ("description", Json.str "User email address")]), ("password", Json.obj [("type", Json.str "string"), ("description", Json.str "User password")])])]

/-- Parsed subtree `specSchema_RegisterResponse` of the embedded document. -/
def specSchema_RegisterResponse : Json :=
  Json.obj [("type", Json.str "object"), ("properties", Json.obj [("id", Json.obj [("type", Json.str "integer"), ("description", Json.str "User ID")]), ("token", Json.obj [("type", Json.str "string"), ("description", Json.str "Authentication token")])])]

/-- Parsed subtree `specSchema_LoginResponse` of the embedded document. -/
def specSchema_LoginResponse : Json :=
  Json.obj [("type", Json.str "object"), ("properties", Json.obj [("token", Json.obj [("type", Json.str "string"), ("description", Json.str "Authentication token")])])]

/-- Parsed subtree `specSchema_ErrorResponse` of the embedded document. -/
def specSchema_ErrorResponse : Json :=
  Json.obj [("type", Json.str "object"), ("properties", Json.obj [("error", Json.obj [("type", Json.str "string"), ("description", Json.str "Error message")])])]

/-- Parsed subtree `specPaths` of the embedded document. -/
def specPaths : Json :=
  Json.obj [("/users", specPath_users), ("/users/\x7bid\x7d", specPath_users_id), ("/unknown", specPath_unknown), ("/unknown/\x7bid\x7d", specPath_unknown_id), ("/register", specPath_register), ("/login", specPath_login), ("/users/\x7bdelay\x7d", specPath_users_delay)]

/-- Parsed subtree `specComponents` of the embedded document. -/
def specComponents : Json :=
  Json.obj [("schemas", Json.obj [("User", specSchema_User), ("Resource", specSchema_Resource), ("Support", specSchema_Support), ("UsersListResponse", specSchema_UsersListResponse), ("SingleUserResponse", specSchema_SingleUserResponse), ("ResourcesListResponse", specSchema_ResourcesListResponse), ("SingleResourceResponse", specSchema_SingleResourceResponse), ("CreateUserRequest", specSchema_CreateUserRequest), ("CreateUserResponse", specSchema_CreateUserResponse), ("UpdateUserRequest", specSchema_UpdateUserRequest), ("UpdateUserResponse", specSchema_UpdateUserResponse), ("RegisterRequest", specSchema_RegisterRequest), ("RegisterResponse", specSchema_RegisterResponse), ("LoginRequest", specSchema_RegisterRequest), ("LoginResponse", specSchema_LoginResponse), ("ErrorResponse", specSchema_ErrorResponse)])]

/-- The embedded OpenAPI document, parsed. -/
def openapiSpecAst : Json :=
  Json.obj [("openapi", Json.str "3.0.3"), ("info", specInfo), ("servers", specServers), ("paths", specPaths), ("components", specComponents)]

/-- Parser state after chunk 0. -/
def parseStage0 : PState :=
  ⟨PMode.expectKey,
   [Frame.objF [("info", specInfo), ("openapi", Json.str "3.0.3")] none],
   none⟩

/-- Parser state after chunk 1. -/
def parseStage1 : PState :=
  ⟨PMode.expectKey,
   [Frame.objF [("required", Json.bool false), ("in", Json.str "query"), ("name", Json.str "page")] none,
    Frame.arrF [],
    Frame.objF [("tags", Json.arr [Json.str "Users"]), ("description", Json.str "Get a paginated list of users"), ("summary", Json.str "List Users")] (some "parameters"),
    Frame.objF [] (some "get"),
    Frame.objF [] (some "/users"),
    Frame.objF [("servers", specServers), ("info", specInfo), ("openapi", Json.str "3.0.3")] (some "paths")],
   none⟩

/-- Parser state after chunk 2. -/
def parseStage2 : PState :=
  ⟨PMode.expectKeyOrEnd,
   [Frame.objF [] none,
    Frame.objF [("description", Json.str "Number of users per page (default: 6)"), ("required", Json.bool false), ("in", Json.str "query"), ("name", Json.str "per_page")] (some "schema"),
    Frame.arrF [Json.obj [("name", Json.str "page"), ("in", Json.str "query"), ("required", Json.bool false), ("description", Json.str "Page number (default: 1)"), ("schema", Json.obj [("type", Json.str "integer"), ("minimum", Json.num 1 0), ("default", Json.num 1 0)])]],
    Frame.objF [("tags", Json.arr [Json.str "Users"]), ("description", Json.str "Get a paginated list of users"), ("summary", Json.str "List Users")] (some "parameters"),
    Frame.objF [] (some "get"),
    Frame.objF [] (some "/users"),
    Frame.objF [("servers", specServers), ("info", specInfo), ("openapi", Json.str "3.0.3")] (some "paths")],
   none⟩

/-- Parser state after chunk 3. -/
def parseStage3 : PState :=
  ⟨PMode.afterValue,
   [Frame.objF [("$ref", Json.str "#/components/schemas/UsersListResponse")] none,
    Frame.objF [] (some "schema"),
    Frame.objF [] (some "application/json"),
    Frame.objF [("description", Json.str "Success")] (some "content"),
    Frame.objF [] (some "200"),
    Frame.objF [("parameters", Json.arr [Json.obj [("name", Json.str "page"), ("in", Json.str "query"), ("required", Json.bool false), ("description", Json.str "Page number (default: 1)"), ("schema", Json.obj [("type", Json.str "integer"), ("minimum", Json.num 1 0), ("default", Json.num 1 0)])], Json.obj [("name", Json.str "per_page"), ("in", Json.str "query"), ("required", Json.bool false), ("description", Json.str "Number of users per page (default: 6)"), ("schema", Json.obj [("type", Json.str "integer"), ("minimum", Json.num 1 0), ("maximum", Json.num 12 0), ("default", Json.num 6 0)])]]), ("tags", Json.arr [Json.str "Users"]), ("description", Json.str "Get a paginated list of users"), ("summary", Json.str "List Users")] (some "responses"),
    Frame.objF [] (some "get"),
    Frame.objF [] (some "/users"),
    Frame.objF [("servers", specServers), ("info", specInfo), ("openapi", Json.str "3.0.3")] (some "paths")],
   none⟩

/-- Parser state after chunk 4. -/
def parseStage4 : PState :=
  ⟨PMode.expectKeyOrEnd,
   [Frame.objF [] none,
    Frame.objF [] (some "schema"),
    Frame.objF [] (some "application/json"),
    Frame.objF [("required", Json.bool true)] (some "content"),
    Frame.objF [("tags", Json.arr [Json.str "Users"]), ("description", Json.str "Create a new user"), ("summary", Json.str "Create User")] (some "requestBody"),
    Frame.objF [("get", Json.obj [("summary", Json.str "List Users"), ("description", Json.str "Get a paginated list of users"), ("tags", Json.arr [Json.str "Users"]), ("parameters", Json.arr [Json.obj [("name", Json.str "page"), ("in", Json.str "query"), ("required", Json.bool false), ("description", Json.str "Page number (default: 1)"), ("schema", Json.obj [("type", Json.str "integer"), ("minimum", Json.num 1 0), ("default", Json.num 1 0)])], Json.obj [("name", Json.str "per_page"), ("in", Json.str "query"), ("required", Json.bool false), ("description", Json.str "Number of users per page (default: 6)"), ("schema", Json.obj [("type", Json.str "integer"), ("minimum", Json.num 1 0), ("maximum", Json.num 12 0), ("default", Json.num 6 0)])]]), ("responses", Json.obj [("200", Json.obj [("description", Json.str "Success"), ("content", Json.obj [("application/json", Json.obj [("schema", Json.obj [("$ref", Json.str "#/components/schemas/UsersListResponse")])])])])])])] (some "post"),
    Frame.objF [] (some "/users"),
    Frame.objF [("servers", specServers), ("info", specInfo), ("openapi", Json.str "3.0.3")] (some "paths")],
   none⟩

/-- Parser state after chunk 5. -/
def parseStage5 : PState :=
  ⟨PMode.afterValue,
   [Frame.objF [("schema", Json.obj [("$ref", Json.str "#/components/schemas/CreateUserResponse")])] none,
    Frame.objF [] (some "application/json"),
    Frame.objF [("description", Json.str "User created successfully")] (some "content"),
    Frame.objF [] (some "201"),
    Frame.objF [("requestBody", Json.obj [("required", Json.bool true), ("content", Json.obj [("application/json", Json.obj [("schema", Json.obj [("$ref", Json.str "#/components/schemas/CreateUserRequest")])])])]), ("tags", Json.arr [Json.str "Users"]), ("description", Json.str "Create a new user"), ("summary", Json.str "Create User")] (some "responses"),
    Frame.objF [("get", Json.obj [("summary", Json.str "List Users"), ("description", Json.str "Get a paginated list of users"), ("tags", Json.arr [Json.str "Users"]), ("parameters", Json.arr [Json.obj [("name", Json.str "page"), ("in", Json.str "query"), ("required", Json.bool false), ("description", Json.str "Page number (default: 1)"), ("schema", Json.obj [("type", Json.str "integer"), ("minimum", Json.num 1 0), ("default", Json.num 1 0)])], Json.obj [("name", Json.str "per_page"), ("in", Json.str "query"), ("required", Json.bool false), ("description", Json.str "Number of users per page (default: 6)"), ("schema", Json.obj [("type", Json.str "integer"), ("minimum", Json.num 1 0), ("maximum", Json.num 12 0), ("default", Json.num 6 0)])]]), ("responses", Json.obj [("200", Json.obj [("description", Json.str "Success"), ("content", Json.obj [("application/json", Json.obj [("schema", Json.obj [("$ref", Json.str "#/components/schemas/UsersListResponse")])])])])])])] (some "post"),
    Frame.objF [] (some "/users"),
    Frame.objF [("servers", specServers), ("info", specInfo), ("openapi", Json.str "3.0.3")] (some "paths")],
   none⟩

/-- Parser state after chunk 6. -/
def parseStage6 : PState :=
  ⟨PMode.expectKeyOrEnd,
   [Frame.objF [] none,
    Frame.objF [("description", Json.str "User ID"), ("required", Json.bool true), ("in", Json.str "path"), ("name", Json.str "id")] (some "schema"),
    Frame.arrF [],
    Frame.objF [("tags", Json.arr [Json.str "Users"]), ("description", Json.str "Get a single user by ID"), ("summary", Json.str "Get Single User")] (some "parameters"),
    Frame.objF [] (some "get"),
    Frame.objF [("/users", specPath_users)] (some "/users/\x7bid\x7d"),
    Frame.objF [("servers", specServers), ("info", specInfo), ("openapi", Json.str "3.0.3")] (some "paths")],
   none⟩

/-- Parser state after chunk 7. -/
def parseStage7 : PState :=
  ⟨PMode.expectKeyOrEnd,
   [Frame.objF [] none,
    Frame.objF [("200", Json.obj [("description", Json.str "Success"), ("content", Json.obj [("application/json", Json.obj [("schema", Json.obj [("$ref", Json.str "#/components/schemas/SingleUserResponse")])])])])] (some "404"),
    Frame.objF [("parameters", Json.arr [Json.obj [("name", Json.str "id"), ("in", Json.str "path"), ("required", Json.bool true), ("description", Json.str "User ID"), ("schema", Json.obj [("type", Json.str "integer")])]]), ("tags", Json.arr [Json.str "Users"]), ("description", Json.str "Get a single user by ID"), ("summary", Json.str "Get Single User")] (some "responses"),
    Frame.objF [] (some "get"),
    Frame.objF [("/users", specPath_users)] (some "/users/\x7bid\x7d"),
    Frame.objF [("servers", specServers), ("info", specInfo), ("openapi", Json.str "3.0.3")] (some "paths")],
   none⟩

/-- Parser state after chunk 8. -/
def parseStage8 : PState :=
  ⟨PMode.expectKey,
   [Frame.objF [("description", Json.str "Update an existing user"), ("summary", Json.str "Update User")] none,
    Frame.objF [("get", Json.obj [("summary", Json.str "Get Single User"), ("description", Json.str "Get a single user by ID"), ("tags", Json.arr [Json.str "Users"]), ("parameters", Json.arr [Json.obj [("name", Json.str "id"), ("in", Json.str "path"), ("required", Json.bool true), ("description", Json.str "User ID"), ("schema", Json.obj [("type", Json.str "integer")])]]), ("responses", Json.obj [("200", Json.obj [("description", Json.str "Success"), ("content", Json.obj [("application/json", Json.obj [("schema", Json.obj [("$ref", Json.str "#/components/schemas/SingleUserResponse")])])])]), ("404", Json.obj [("description", Json.str "User not found"), ("content", Json.obj [("application/json", Json.obj [("schema", Json.obj [("$ref", Json.str "#/components/schemas/ErrorResponse")])])])])])])] (some "put"),
    Frame.objF [("/users", specPath_users)] (some "/users/\x7bid\x7d"),
    Frame.objF [("servers", specServers), ("info", specInfo), ("openapi", Json.str "3.0.3")] (some "paths")],
   none⟩

/-- Parser state after chunk 9. -/
def parseStage9 : PState :=
  ⟨PMode.expectKeyOrEnd,
   [Frame.objF [] none,
    Frame.objF [] (some "application/json"),
    Frame.objF [("required", Json.bool true)] (some "content"),
    Frame.objF [("parameters", Json.arr [Json.obj [("name", Json.str "id"), ("in", Json.str "path"), ("required", Json.bool true), ("description", Json.str "User ID"), ("schema", Json.obj [("type", Json.str "integer")])]]), ("tags", Json.arr [Json.str "Users"]), ("description", Json.str "Update an existing user"), ("summary", Json.str "Update User")] (some "requestBody"),
    Frame.objF [("get", Json.obj [("summary", Json.str "Get Single User"), ("description", Json.str "Get a single user by ID"), ("tags", Json.arr [Json.str "Users"]), ("parameters", Json.arr [Json.obj [("name", Json.str "id"), ("in", Json.str "path"), ("required", Json.bool true), ("description", Json.str "User ID"), ("schema", Json.obj [("type", Json.str "integer")])]]), ("responses", Json.obj [("200", Json.obj [("description", Json.str "Success"), ("content", Json.obj [("application/json", Json.obj [("schema", Json.obj [("$ref", Json.str "#/components/schemas/SingleUserResponse")])])])]), ("404", Json.obj [("description", Json.str "User not found"), ("content", Json.obj [("application/json", Json.obj [("schema", Json.obj [("$ref", Json.str "#/components/schemas/ErrorResponse")])])])])])])] (some "put"),
    Frame.objF [("/users", specPath_users)] (some "/users/\x7bid\x7d"),
    Frame.objF [("servers", specServers), ("info", specInfo), ("openapi", Json.str "3.0.3")] (some "paths")],
   none⟩

/-- Parser state after chunk 10. -/
def parseStage10 : PState :=
  ⟨PMode.afterValue,
   [Frame.objF [("$ref", Json.str "#/components/schemas/UpdateUserResponse")] none,
    Frame.objF [] (some "schema"),
    Frame.objF [] (some "application/json"),
    Frame.objF [("description", Json.str "User updated successfully")] (some "content"),
    Frame.objF [] (some "200"),
    Frame.objF [("requestBody", Json.obj [("required", Json.bool true), ("content", Json.obj [("application/json", Json.obj [("schema", Json.obj [("$ref", Json.str "#/components/schemas/UpdateUserRequest")])])])]), ("parameters", Json.arr [Json.obj [("name", Json.str "id"), ("in", Json.str "path"), ("required", Json.bool true), ("description", Json.str "User ID"), ("schema", Json.obj [("type", Json.str "integer")])]]), ("tags", Json.arr [Json.str "Users"]), ("description", Json.str "Update an existing user"), ("summary", Json.str "Update User")] (some "responses"),
    Frame.objF [("get", Json.obj [("summary", Json.str "Get Single User"), ("description", Json.str "Get a single user by ID"), ("tags", Json.arr [Json.str "Users"]), ("parameters", Json.arr [Json.obj [("name", Json.str "id"), ("in", Json.str "path"), ("required", Json.bool true), ("description", Json.str "User ID"), ("schema", Json.obj [("type", Json.str "integer")])]]), ("responses", Json.obj [("200", Json.obj [("description", Json.str "Success"), ("content", Json.obj [("application/json", Json.obj [("schema", Json.obj [("$ref", Json.str "#/components/schemas/SingleUserResponse")])])])]), ("404", Json.obj [("description", Json.str "User not found"), ("content", Json.obj [("application/json", Json.obj [("schema", Json.obj [("$ref", Json.str "#/components/schemas/ErrorResponse")])])])])])])] (some "put"),
    Frame.objF [("/users", specPath_users)] (some "/users/\x7bid\x7d"),
    Frame.objF [("servers", specServers), ("info", specInfo), ("openapi", Json.str "3.0.3")] (some "paths")],
   none⟩

/-- Parser state after chunk 11. -/
def parseStage11 : PState :=
  ⟨PMode.expectKey,
   [Frame.objF [("description", Json.str "User ID"), ("required", Json.bool true), ("in", Json.str "path"), ("name", Json.str "id")] none,
    Frame.arrF [],
    Frame.objF [("tags", Json.arr [Json.str "Users"]), ("description", Json.str "Partially update an existing user"), ("summary", Json.str "Partial Update User")] (some "parameters"),
    Frame.objF [("put", Json.obj [("summary", Json.str "Update User"), ("description", Json.str "Update an existing user"), ("tags", Json.arr [Json.str "Users"]), ("parameters", Json.arr [Json.obj [("name", Json.str "id"), ("in", Json.str "path"), ("required", Json.bool true), ("description", Json.str "User ID"), ("schema", Json.obj [("type", Json.str "integer")])]]), ("requestBody", Json.obj [("required", Json.bool true), ("content", Json.obj [("application/json", Json.obj [("schema", Json.obj [("$ref", Json.str "#/components/schemas/UpdateUserRequest")])])])]), ("responses", Json.obj [("200", Json.obj [("description", Json.str "User updated successfully"), ("content", Json.obj [("application/json", Json.obj [("schema", Json.obj [("$ref", Json.str "#/components/schemas/UpdateUserResponse")])])])])])]), ("get", Json.obj [("summary", Json.str "Get Single User"), ("description", Json.str "Get a single user by ID"), ("tags", Json.arr [Json.str "Users"]), ("parameters", Json.arr [Json.obj [("name", Json.str "id"), ("in", Json.str "path"), ("required", Json.bool true), ("description", Json.str "User ID"), ("schema", Json.obj [("type", Json.str "integer")])]]), ("responses", Json.obj [("200", Json.obj [("description", Json.str "Success"), ("content", Json.obj [("application/json", Json.obj [("schema", Json.obj [("$ref", Json.str "#/components/schemas/SingleUserResponse")])])])]), ("404", Json.obj [("description", Json.str "User not found"), ("content", Json.obj [("application/json", Json.obj [("schema", Json.obj [("$ref", Json.str "#/components/schemas/ErrorResponse")])])])])])])] (some "patch"),
    Frame.objF [("/users", specPath_users)] (some "/users/\x7bid\x7d"),
    Frame.objF [("servers", specServers), ("info", specInfo), ("openapi", Json.str "3.0.3")] (some "paths")],
   none⟩

/-- Parser state after chunk 12. -/
def parseStage12 : PState :=
  ⟨PMode.expectKeyOrEnd,
   [Frame.objF [] none,
    Frame.objF [] (some "200"),
    Frame.objF [("requestBody", Json.obj [("required", Json.bool true), ("content", Json.obj [("application/json", Json.obj [("schema", Json.obj [("$ref", Json.str "#/components/schemas/UpdateUserRequest")])])])]), ("parameters", Json.arr [Json.obj [("name", Json.str "id"), ("in", Json.str "path"), ("required", Json.bool true), ("description", Json.str "User ID"), ("schema", Json.obj [("type", Json.str "integer")])]]), ("tags", Json.arr [Json.str "Users"]), ("description", Json.str "Partially update an existing user"), ("summary", Json.str "Partial Update User")] (some "responses"),
    Frame.objF [("put", Json.obj [("summary", Json.str "Update User"), ("description", Json.str "Update an existing user"), ("tags", Json.arr [Json.str "Users"]), ("parameters", Json.arr [Json.obj [("name", Json.str "id"), ("in", Json.str "path"), ("required", Json.bool true), ("description", Json.str "User ID"), ("schema", Json.obj [("type", Json.str "integer")])]]), ("requestBody", Json.obj [("required", Json.bool true), ("content", Json.obj [("application/json", Json.obj [("schema", Json.obj [("$ref", Json.str "#/components/schemas/UpdateUserRequest")])])])]), ("responses", Json.obj [("200", Json.obj [("description", Json.str "User updated successfully"), ("content", Json.obj [("application/json", Json.obj [("schema", Json.obj [("$ref", Json.str "#/components/schemas/UpdateUserResponse")])])])])])]), ("get", Json.obj [("summary", Json.str "Get Single User"), ("description", Json.str "Get a single user by ID"), ("tags", Json.arr [Json.str "Users"]), ("parameters", Json.arr [Json.obj [("name", Json.str "id"), ("in", Json.str "path"), ("required", Json.bool true), ("description", Json.str "User ID"), ("schema", Json.obj [("type", Json.str "integer")])]]), ("responses", Json.obj [("200", Json.obj [("description", Json.str "Success"), ("content", Json.obj [("application/json", Json.obj [("schema", Json.obj [("$ref", Json.str "#/components/schemas/SingleUserResponse")])])])]), ("404", Json.obj [("description", Json.str "User not found"), ("content", Json.obj [("application/json", Json.obj [("schema", Json.obj [("$ref", Json.str "#/components/schemas/ErrorResponse")])])])])])])] (some "patch"),
    Frame.objF [("/users", specPath_users)] (some "/users/\x7bid\x7d"),
    Frame.objF [("servers", specServers), ("info", specInfo), ("openapi", Json.str "3.0.3")] (some "paths")],
   none⟩

/-- Parser state after chunk 13. -/
def parseStage13 : PState :=
  ⟨PMode.expectKey,
   [Frame.objF [("description", Json.str "Delete a user by ID"), ("summary", Json.str "Delete User")] none,
    Frame.objF [("patch", Json.obj [("summary", Json.str "Partial Update User"), ("description", Json.str "Partially update an existing user"), ("tags", Json.arr [Json.str "Users"]), ("parameters", Json.arr [Json.obj [("name", Json.str "id"), ("in", Json.str "path"), ("required", Json.bool true), ("description", Json.str "User ID"), ("schema", Json.obj [("type", Json.str "integer")])]]), ("requestBody", Json.obj [("required", Json.bool true), ("content", Json.obj [("application/json", Json.obj [("schema", Json.obj [("$ref", Json.str "#/components/schemas/UpdateUserRequest")])])])]), ("responses", Json.obj [("200", Json.obj [("description", Json.str "User updated successfully"), ("content", Json.obj [("application/json", Json.obj [("schema", Json.obj [("$ref", Json.str "#/components/schemas/UpdateUserResponse")])])])])])]), ("put", Json.obj [("summary", Json.str "Update User"), ("description", Json.str "Update an existing user"), ("tags", Json.arr [Json.str "Users"]), ("parameters", Json.arr [Json.obj [("name", Json.str "id"), ("in", Json.str "path"), ("required", Json.bool true), ("description", Json.str "User ID"), ("schema", Json.obj [("type", Json.str "integer")])]]), ("requestBody", Json.obj [("required", Json.bool true), ("content", Json.obj [("application/json", Json.obj [("schema", Json.obj [("$ref", Json.str "#/components/schemas/UpdateUserRequest")])])])]), ("responses", Json.obj [("200", Json.obj [("description", Json.str "User updated successfully"), ("content", Json.obj [("application/json", Json.obj [("schema", Json.obj [("$ref", Json.str "#/components/schemas/UpdateUserResponse")])])])])])]), ("get", Json.obj [("summary", Json.str "Get Single User"), ("description", Json.str "Get a single user by ID"), ("tags", Json.arr [Json.str "Users"]), ("parameters", Json.arr [Json.obj [("name", Json.str "id"), ("in", Json.str "path"), ("required", Json.bool true), ("description", Json.str "User ID"), ("schema", Json.obj [("type", Json.str "integer")])]]), ("responses", Json.obj [("200", Json.obj [("description", Json.str "Success"), ("content", Json.obj [("application/json", Json.obj [("schema", Json.obj [("$ref", Json.str "#/components/schemas/SingleUserResponse")])])])]), ("404", Json.obj [("description", Json.str "User not found"), ("content", Json.obj [("application/json", Json.obj [("schema", Json.obj [("$ref", Json.str "#/components/schemas/ErrorResponse")])])])])])])] (some "delete"),
    Frame.objF [("/users", specPath_users)] (some "/users/\x7bid\x7d"),
    Frame.objF [("servers", specServers), ("info", specInfo), ("openapi", Json.str "3.0.3")] (some "paths")],
   none⟩

/-- Parser state after chunk 14. -/
def parseStage14 : PState :=
  ⟨PMode.afterValue,
   [Frame.objF [("responses", Json.obj [("204", Json.obj [("description", Json.str "User deleted successfully")])]), ("parameters", Json.arr [Json.obj [("name", Json.str "id"), ("in", Json.str "path"), ("required", Json.bool true), ("description", Json.str "User ID"), ("schema", Json.obj [("type", Json.str "integer")])]]), ("tags", Json.arr [Json.str "Users"]), ("description", Json.str "Delete a user by ID"), ("summary", Json.str "Delete User")] none,
    Frame.objF [("patch", Json.obj [("summary", Json.str "Partial Update User"), ("description", Json.str "Partially update an existing user"), ("tags", Json.arr [Json.str "Users"]), ("parameters", Json.arr [Json.obj [("name", Json.str "id"), ("in", Json.str "path"), ("required", Json.bool true), ("description", Json.str "User ID"), ("schema", Json.obj [("type", Json.str "integer")])]]), ("requestBody", Json.obj [("required", Json.bool true), ("content", Json.obj [("application/json", Json.obj [("schema", Json.obj [("$ref", Json.str "#/components/schemas/UpdateUserRequest")])])])]), ("responses", Json.obj [("200", Json.obj [("description", Json.str "User updated successfully"), ("content", Json.obj [("application/json", Json.obj [("schema", Json.obj [("$ref", Json.str "#/components/schemas/UpdateUserResponse")])])])])])]), ("put", Json.obj [("summary", Json.str "Update User"), ("description", Json.str "Update an existing user"), ("tags", Json.arr [Json.str "Users"]), ("parameters", Json.arr [Json.obj [("name", Json.str "id"), ("in", Json.str "path"), ("required", Json.bool true), ("description", Json.str "User ID"), ("schema", Json.obj [("type", Json.str "integer")])]]), ("requestBody", Json.obj [("required", Json.bool true), ("content", Json.obj [("application/json", Json.obj [("schema", Json.obj [("$ref", Json.str "#/components/schemas/UpdateUserRequest")])])])]), ("responses", Json.obj [("200", Json.obj [("description", Json.str "User updated successfully"), ("content", Json.obj [("application/json", Json.obj [("schema", Json.obj [("$ref", Json.str "#/components/schemas/UpdateUserResponse")])])])])])]), ("get", Json.obj [("summary", Json.str "Get Single User"), ("description", Json.str "Get a single user by ID"), ("tags", Json.arr [Json.str "Users"]), ("parameters", Json.arr [Json.obj [("name", Json.str "id"), ("in", Json.str "path"), ("required", Json.bool true), ("description", Json.str "User ID"), ("schema", Json.obj [("type", Json.str "integer")])]]), ("responses", Json.obj [("200", Json.obj [("description", Json.str "Success"), ("content", Json.obj [("application/json", Json.obj [("schema", Json.obj [("$ref", Json.str "#/components/schemas/SingleUserResponse")])])])]), ("404", Json.obj [("description", Json.str "User not found"), ("content", Json.obj [("application/json", Json.obj [("schema", Json.obj [("$ref", Json.str "#/components/schemas/ErrorResponse")])])])])])])] (some "delete"),
    Frame.objF [("/users", specPath_users)] (some "/users/\x7bid\x7d"),
    Frame.objF [("servers", specServers), ("info", specInfo), ("openapi", Json.str "3.0.3")] (some "paths")],
   none⟩

/-- Parser state after chunk 15. -/
def parseStage15 : PState :=
  ⟨PMode.expectKeyOrEnd,
   [Frame.objF [] none,
    Frame.objF [("description", Json.str "Page number"), ("required", Json.bool false), ("in", Json.str "query"), ("name", Json.str "page")] (some "schema"),
    Frame.arrF [],
    Frame.objF [("tags", Json.arr [Json.str "Resources"]), ("description", Json.str "Get a list of unknown resources (colors)"), ("summary", Json.str "List Resources")] (some "parameters"),
    Frame.objF [] (some "get"),
    Frame.objF [("/users/\x7bid\x7d", specPath_users_id), ("/users", specPath_users)] (some "/unknown"),
    Frame.objF [("servers", specServers), ("info", specInfo), ("openapi", Json.str "3.0.3")] (some "paths")],
   none⟩

/-- Parser state after chunk 16. -/
def parseStage16 : PState :=
  ⟨PMode.afterValue,
   [Frame.objF [("application/json", Json.obj [("schema", Json.obj [("$ref", Json.str "#/components/schemas/ResourcesListResponse")])])] none,
    Frame.objF [("description", Json.str "Success")] (some "content"),
    Frame.objF [] (some "200"),
    Frame.objF [("parameters", Json.arr [Json.obj [("name", Json.str "page"), ("in", Json.str "query"), ("required", Json.bool false), ("description", Json.str "Page number"), ("schema", Json.obj [("type", Json.str "integer"), ("minimum", Json.num 1 0), ("default", Json.num 1 0)])]]), ("tags", Json.arr [Json.str "Resources"]), ("description", Json.str "Get a list of unknown resources (colors)"), ("summary", Json.str "List Resources")] (some "responses"),
    Frame.objF [] (some "get"),
    Frame.objF [("/users/\x7bid\x7d", specPath_users_id), ("/users", specPath_users)] (some "/unknown"),
    Frame.objF [("servers", specServers), ("info", specInfo), ("openapi", Json.str "3.0.3")] (some "paths")],
   none⟩

/-- Parser state after chunk 17. -/
def parseStage17 : PState :=
  ⟨PMode.expectKeyOrEnd,
   [Frame.objF [] none,
    Frame.objF [("description", Json.str "Resource ID"), ("required", Json.bool true), ("in", Json.str "path"), ("name", Json.str "id")] (some "schema"),
    Frame.arrF [],
    Frame.objF [("tags", Json.arr [Json.str "Resources"]), ("description", Json.str "Get a single resource by ID"), ("summary", Json.str "Get Single Resource")] (some "parameters"),
    Frame.objF [] (some "get"),
    Frame.objF [("/unknown", specPath_unknown), ("/users/\x7bid\x7d", specPath_users_id), ("/users", specPath_users)] (some "/unknown/\x7bid\x7d"),
    Frame.objF [("servers", specServers), ("info", specInfo), ("openapi", Json.str "3.0.3")] (some "paths")],
   none⟩

/-- Parser state after chunk 18. -/
def parseStage18 : PState :=
  ⟨PMode.expectKeyOrEnd,
   [Frame.objF [] none,
    Frame.objF [("200", Json.obj [("description", Json.str "Success"), ("content", Json.obj [("application/json", Json.obj [("schema", Json.obj [("$ref", Json.str "#/components/schemas/SingleResourceResponse")])])])])] (some "404"),
    Frame.objF [("parameters", Json.arr [Json.obj [("name", Json.str "id"), ("in", Json.str "path"), ("required", Json.bool true), ("description", Json.str "Resource ID"), ("schema", Json.obj [("type", Json.str "integer")])]]), ("tags", Json.arr [Json.str "Resources"]), ("description", Json.str "Get a single resource by ID"), ("summary", Json.str "Get Single Resource")] (some "responses"),
    Frame.objF [] (some "get"),
    Frame.objF [("/unknown", specPath_unknown), ("/users/\x7bid\x7d", specPath_users_id), ("/users", specPath_users)] (some "/unknown/\x7bid\x7d"),
    Frame.objF [("servers", specServers), ("info", specInfo), ("openapi", Json.str "3.0.3")] (some "paths")],
   none⟩

/-- Parser state after chunk 19. -/
def parseStage19 : PState :=
  ⟨PMode.expectKey,
   [Frame.objF [("summary", Json.str "Register User")] none,
    Frame.objF [] (some "post"),
    Frame.objF [("/unknown/\x7bid\x7d", specPath_unknown_id), ("/unknown", specPath_unknown), ("/users/\x7bid\x7d", specPath_users_id), ("/users", specPath_users)] (some "/register"),
    Frame.objF [("servers", specServers), ("info", specInfo), ("openapi", Json.str "3.0.3")] (some "paths")],
   none⟩

/-- Parser state after chunk 20. -/
def parseStage20 : PState :=
  ⟨PMode.expectKeyOrEnd,
   [Frame.objF [] none,
    Frame.objF [] (some "200"),
    Frame.objF [("requestBody", Json.obj [("required", Json.bool true), ("content", Json.obj [("application/json", Json.obj [("schema", Json.obj [("$ref", Json.str "#/components/schemas/RegisterRequest")])])])]), ("tags", Json.arr [Json.str "Authentication"]), ("description", Json.str "Register a new user account"), ("summary", Json.str "Register User")] (some "responses"),
    Frame.objF [] (some "post"),
    Frame.objF [("/unknown/\x7bid\x7d", specPath_unknown_id), ("/unknown", specPath_unknown), ("/users/\x7bid\x7d", specPath_users_id), ("/users", specPath_users)] (some "/register"),
    Frame.objF [("servers", specServers), ("info", specInfo), ("openapi", Json.str "3.0.3")] (some "paths")],
   none⟩

/-- Parser state after chunk 21. -/
def parseStage21 : PState :=
  ⟨PMode.expectKeyOrEnd,
   [Frame.objF [] none,
    Frame.objF [] (some "application/json"),
    Frame.objF [("description", Json.str "Registration failed")] (some "content"),
    Frame.objF [("200", Json.obj [("description", Json.str "Registration successful"), ("content", Json.obj [("application/json", Json.obj [("schema", Json.obj [("$ref", Json.str "#/components/schemas/RegisterResponse")])])])])] (some "400"),
    Frame.objF [("requestBody", Json.obj [("required", Json.bool true), ("content", Json.obj [("application/json", Json.obj [("schema", Json.obj [("$ref", Json.str "#/components/schemas/RegisterRequest")])])])]), ("tags", Json.arr [Json.str "Authentication"]), ("description", Json.str "Register a new user account"), ("summary", Json.str "Register User")] (some "responses"),
    Frame.objF [] (some "post"),
    Frame.objF [("/unknown/\x7bid\x7d", specPath_unknown_id), ("/unknown", specPath_unknown), ("/users/\x7bid\x7d", specPath_users_id), ("/users", specPath_users)] (some "/register"),
    Frame.objF [("servers", specServers), ("info", specInfo), ("openapi", Json.str "3.0.3")] (some "paths")],
   none⟩

/-- Parser state after chunk 22. -/
def parseStage22 : PState :=
  ⟨PMode.expectKey,
   [Frame.objF [("required", Json.bool true)] none,
    Frame.objF [("tags", Json.arr [Json.str "Authentication"]), ("description", Json.str "Authenticate user and get token"), ("summary", Json.str "Login User")] (some "requestBody"),
    Frame.objF [] (some "post"),
    Frame.objF [("/register", specPath_register), ("/unknown/\x7bid\x7d", specPath_unknown_id), ("/unknown", specPath_unknown), ("/users/\x7bid\x7d", specPath_users_id), ("/users", specPath_users)] (some "/login"),
    Frame.objF [("servers", specServers), ("info", specInfo), ("openapi", Json.str "3.0.3")] (some "paths")],
   none⟩

/-- Parser state after chunk 23. -/
def parseStage23 : PState :=
  ⟨PMode.expectKeyOrEnd,
   [Frame.objF [] none,
    Frame.objF [] (some "schema"),
    Frame.objF [] (some "application/json"),
    Frame.objF [("description", Json.str "Login successful")] (some "content"),
    Frame.objF [] (some "200"),
    Frame.objF [("requestBody", Json.obj [("required", Json.bool true), ("content", Json.obj [("application/json", Json.obj [("schema", Json.obj [("$ref", Json.str "#/components/schemas/LoginRequest")])])])]), ("tags", Json.arr [Json.str "Authentication"]), ("description", Json.str "Authenticate user and get token"), ("summary", Json.str "Login User")] (some "responses"),
    Frame.objF [] (some "post"),
    Frame.objF [("/register", specPath_register), ("/unknown/\x7bid\x7d", specPath_unknown_id), ("/unknown", specPath_unknown), ("/users/\x7bid\x7d", specPath_users_id), ("/users", specPath_users)] (some "/login"),
    Frame.objF [("servers", specServers), ("info", specInfo), ("openapi", Json.str "3.0.3")] (some "paths")],
   none⟩

/-- Parser state after chunk 24. -/
def parseStage24 : PState :=
  ⟨PMode.afterValue,
   [Frame.objF [("400", Json.obj [("description", Json.str "Login failed"), ("content", Json.obj [("application/json", Json.obj [("schema", Json.obj [("$ref", Json.str "#/components/schemas/ErrorResponse")])])])]), ("200", Json.obj [("description", Json.str "Login successful"), ("content", Json.obj [("application/json", Json.obj [("schema", Json.obj [("$ref", Json.str "#/components/schemas/LoginResponse")])])])])] none,
    Frame.objF [("requestBody", Json.obj [("required", Json.bool true), ("content", Json.obj [("application/json", Json.obj [("schema", Json.obj [("$ref", Json.str "#/components/schemas/LoginRequest")])])])]), ("tags", Json.arr [Json.str "Authentication"]), ("description", Json.str "Authenticate user and get token"), ("summary", Json.str "Login User")] (some "responses"),
    Frame.objF [] (some "post"),
    Frame.objF [("/register", specPath_register), ("/unknown/\x7bid\x7d", specPath_unknown_id), ("/unknown", specPath_unknown), ("/users/\x7bid\x7d", specPath_users_id), ("/users", specPath_users)] (some "/login"),
    Frame.objF [("servers", specServers), ("info", specInfo), ("openapi", Json.str "3.0.3")] (some "paths")],
   none⟩

/-- Parser state after chunk 25. -/
def parseStage25 : PState :=
  ⟨PMode.expectKey,
   [Frame.objF [("description", Json.str "Delay in seconds"), ("required", Json.bool true), ("in", Json.str "path"), ("name", Json.str "delay")] none,
    Frame.arrF [],
    Frame.objF [("tags", Json.arr [Json.str "Testing"]), ("description", Json.str "Get users list with artificial delay (for testing purposes)"), ("summary", Json.str "Delayed Response")] (some "parameters"),
    Frame.objF [] (some "get"),
    Frame.objF [("/login", specPath_login), ("/register", specPath_register), ("/unknown/\x7bid\x7d", specPath_unknown_id), ("/unknown", specPath_unknown), ("/users/\x7bid\x7d", specPath_users_id), ("/users", specPath_users)] (some "/users/\x7bdelay\x7d"),
    Frame.objF [("servers", specServers), ("info", specInfo), ("openapi", Json.str "3.0.3")] (some "paths")],
   none⟩

/-- Parser state after chunk 26. -/
def parseStage26 : PState :=
  ⟨PMode.afterValue,
   [Frame.objF [("schema", Json.obj [("$ref", Json.str "#/components/schemas/UsersListResponse")])] none,
    Frame.objF [] (some "application/json"),
    Frame.objF [("description", Json.str "Success with delay")] (some "content"),
    Frame.objF [] (some "200"),
    Frame.objF [("parameters", Json.arr [Json.obj [("name", Json.str "delay"), ("in", Json.str "path"), ("required", Json.bool true), ("description", Json.str "Delay in seconds"), ("schema", Json.obj [("type", Json.str "integer"), ("minimum", Json.num 1 0)])]]), ("tags", Json.arr [Json.str "Testing"]), ("description", Json.str "Get users list with artificial delay (for testing purposes)"), ("summary", Json.str "Delayed Response")] (some "responses"),
    Frame.objF [] (some "get"),
    Frame.objF [("/login", specPath_login), ("/register", specPath_register), ("/unknown/\x7bid\x7d", specPath_unknown_id), ("/unknown", specPath_unknown), ("/users/\x7bid\x7d", specPath_users_id), ("/users", specPath_users)] (some "/users/\x7bdelay\x7d"),
    Frame.objF [("servers", specServers), ("info", specInfo), ("openapi", Json.str "3.0.3")] (some "paths")],
   none⟩

/-- Parser state after chunk 27. -/
def parseStage27 : PState :=
  ⟨PMode.expectKey,
   [Frame.objF [("format", Json.str "email"), ("type", Json.str "string")] none,
    Frame.objF [("id", Json.obj [("type", Json.str "integer"), ("description", Json.str "User ID")])] (some "email"),
    Frame.objF [("type", Json.str "object")] (some "properties"),
    Frame.objF [] (some "User"),
    Frame.objF [] (some "schemas"),
    Frame.objF [("paths", specPaths), ("servers", specServers), ("info", specInfo), ("openapi", Json.str "3.0.3")] (some "components")],
   none⟩

/-- Parser state after chunk 28. -/
def parseStage28 : PState :=
  ⟨PMode.expectKey,
   [Frame.objF [("format", Json.str "uri"), ("type", Json.str "string")] none,
    Frame.objF [("last_name", Json.obj [("type", Json.str "string"), ("description", Json.str "User last name")]), ("first_name", Json.obj [("type", Json.str "string"), ("description", Json.str "User first name")]), ("email", Json.obj [("type", Json.str "string"), ("format", Json.str "email"), ("description", Json.str "User email address")]), ("id", Json.obj [("type", Json.str "integer"), ("description", Json.str "User ID")])] (some "avatar"),
    Frame.objF [("type", Json.str "object")] (some "properties"),
    Frame.objF [] (some "User"),
    Frame.objF [] (some "schemas"),
    Frame.objF [("paths", specPaths), ("servers", specServers), ("info", specInfo), ("openapi", Json.str "3.0.3")] (some "components")],
   none⟩

/-- Parser state after chunk 29. -/
def parseStage29 : PState :=
  ⟨PMode.expectKeyOrEnd,
   [Frame.objF [] none,
    Frame.objF [("name", Json.obj [("type", Json.str "string"), ("description", Json.str "Resource name")]), ("id", Json.obj [("type", Json.str "integer"), ("description", Json.str "Resource ID")])] (some "year"),
    Frame.objF [("type", Json.str "object")] (some "properties"),
    Frame.objF [("User", specSchema_User)] (some "Resource"),
    Frame.objF [] (some "schemas"),
    Frame.objF [("paths", specPaths), ("servers", specServers), ("info", specInfo), ("openapi", Json.str "3.0.3")] (some "components")],
   none⟩

/-- Parser state after chunk 30. -/
def parseStage30 : PState :=
  ⟨PMode.expectKey,
   [Frame.objF [("type", Json.str "object")] none,
    Frame.objF [("Resource", specSchema_Resource), ("User", specSchema_User)] (some "Support"),
    Frame.objF [] (some "schemas"),
    Frame.objF [("paths", specPaths), ("servers", specServers), ("info", specInfo), ("openapi", Json.str "3.0.3")] (some "components")],
   none⟩

/-- Parser state after chunk 31. -/
def parseStage31 : PState :=
  ⟨PMode.expectKeyOrEnd,
   [Frame.objF [] none,
    Frame.objF [] (some "page"),
    Frame.objF [("type", Json.str "object")] (some "properties"),
    Frame.objF [("Support", specSchema_Support), ("Resource", specSchema_Resource), ("User", specSchema_User)] (some "UsersListResponse"),
    Frame.objF [] (some "schemas"),
    Frame.objF [("paths", specPaths), ("servers", specServers), ("info", specInfo), ("openapi", Json.str "3.0.3")] (some "components")],
   none⟩

/-- Parser state after chunk 32. -/
def parseStage32 : PState :=
  ⟨PMode.expectKey,
   [Frame.objF [("type", Json.str "integer")] none,
    Frame.objF [("total", Json.obj [("type", Json.str "integer"), ("description", Json.str "Total number of items")]), ("per_page", Json.obj [("type", Json.str "integer"), ("description", Json.str "Number of items per page")]), ("page", Json.obj [("type", Json.str "integer"), ("description", Json.str "Current page number")])] (some "total_pages"),
    Frame.objF [("type", Json.str "object")] (some "properties"),
    Frame.objF [("Support", specSchema_Support), ("Resource", specSchema_Resource), ("User", specSchema_User)] (some "UsersListResponse"),
    Frame.objF [] (some "schemas"),
    Frame.objF [("paths", specPaths), ("servers", specServers), ("info", specInfo), ("openapi", Json.str "3.0.3")] (some "components")],
   none⟩

/-- Parser state after chunk 33. -/
def parseStage33 : PState :=
  ⟨PMode.expectKeyOrEnd,
   [Frame.objF [] none,
    Frame.objF [("type", Json.str "object")] (some "properties"),
    Frame.objF [("UsersListResponse", specSchema_UsersListResponse), ("Support", specSchema_Support), ("Resource", specSchema_Resource), ("User", specSchema_User)] (some "SingleUserResponse"),
    Frame.objF [] (some "schemas"),
    Frame.objF [("paths", specPaths), ("servers", specServers), ("info", specInfo), ("openapi", Json.str "3.0.3")] (some "components")],
   none⟩

/-- Parser state after chunk 34. -/
def parseStage34 : PState :=
  ⟨PMode.expectKey,
   [Frame.objF [("page", Json.obj [("type", Json.str "integer"), ("description", Json.str "Current page number")])] none,
    Frame.objF [("type", Json.str "object")] (some "properties"),
    Frame.objF [("SingleUserResponse", specSchema_SingleUserResponse), ("UsersListResponse", specSchema_UsersListResponse), ("Support", specSchema_Support), ("Resource", specSchema_Resource), ("User", specSchema_User)] (some "ResourcesListResponse"),
    Frame.objF [] (some "schemas"),
    Frame.objF [("paths", specPaths), ("servers", specServers), ("info", specInfo), ("openapi", Json.str "3.0.3")] (some "components")],
   none⟩

/-- Parser state after chunk 35. -/
def parseStage35 : PState :=
  ⟨PMode.expectKeyOrEnd,
   [Frame.objF [] none,
    Frame.objF [("total_pages", Json.obj [("type", Json.str "integer"), ("description", Json.str "Total number of pages")]), ("total", Json.obj [("type", Json.str "integer"), ("description", Json.str "Total number of items")]), ("per_page", Json.obj [("type", Json.str "integer"), ("description", Json.str "Number of items per page")]), ("page", Json.obj [("type", Json.str "integer"), ("description", Json.str "Current page number")])] (some "data"),
    Frame.objF [("type", Json.str "object")] (some "properties"),
    Frame.objF [("SingleUserResponse", specSchema_SingleUserResponse), ("UsersListResponse", specSchema_UsersListResponse), ("Support", specSchema_Support), ("Resource", specSchema_Resource), ("User", specSchema_User)] (some "ResourcesListResponse"),
    Frame.objF [] (some "schemas"),
    Frame.objF [("paths", specPaths), ("servers", specServers), ("info", specInfo), ("openapi", Json.str "3.0.3")] (some "components")],
   none⟩

/-- Parser state after chunk 36. -/
def parseStage36 : PState :=
  ⟨PMode.afterValue,
   [Frame.objF [("$ref", Json.str "#/components/schemas/Resource")] none,
    Frame.objF [] (some "data"),
    Frame.objF [("type", Json.str "object")] (some "properties"),
    Frame.objF [("ResourcesListResponse", specSchema_ResourcesListResponse), ("SingleUserResponse", specSchema_SingleUserResponse), ("UsersListResponse", specSchema_UsersListResponse), ("Support", specSchema_Support), ("Resource", specSchema_Resource), ("User", specSchema_User)] (some "SingleResourceResponse"),
    Frame.objF [] (some "schemas"),
    Frame.objF [("paths", specPaths), ("servers", specServers), ("info", specInfo), ("openapi", Json.str "3.0.3")] (some "components")],
   none⟩

/-- Parser state after chunk 37. -/
def parseStage37 : PState :=
  ⟨PMode.expectKey,
   [Frame.objF [("type", Json.str "string")] none,
    Frame.objF [("name", Json.obj [("type", Json.str "string"), ("description", Json.str "User name")])] (some "job"),
    Frame.objF [("required", Json.arr [Json.str "name", Json.str "job"]), ("type", Json.str "object")] (some "properties"),
    Frame.objF [("SingleResourceResponse", specSchema_SingleResourceResponse), ("ResourcesListResponse", specSchema_ResourcesListResponse), ("SingleUserResponse", specSchema_SingleUserResponse), ("UsersListResponse", specSchema_UsersListResponse), ("Support", specSchema_Support), ("Resource", specSchema_Resource), ("User", specSchema_User)] (some "CreateUserRequest"),
    Frame.objF [] (some "schemas"),
    Frame.objF [("paths", specPaths), ("servers", specServers), ("info", specInfo), ("openapi", Json.str "3.0.3")] (some "components")],
   none⟩

/-- Parser state after chunk 38. -/
def parseStage38 : PState :=
  ⟨PMode.expectKeyOrEnd,
   [Frame.objF [] none,
    Frame.objF [("job", Json.obj [("type", Json.str "string"), ("description", Json.str "User job title")]), ("name", Json.obj [("type", Json.str "string"), ("description", Json.str "User name")])] (some "id"),
    Frame.objF [("type", Json.str "object")] (some "properties"),
    Frame.objF [("CreateUserRequest", specSchema_CreateUserRequest), ("SingleResourceResponse", specSchema_SingleResourceResponse), ("ResourcesListResponse", specSchema_ResourcesListResponse), ("SingleUserResponse", specSchema_SingleUserResponse), ("UsersListResponse", specSchema_UsersListResponse), ("Support", specSchema_Support), ("Resource", specSchema_Resource), ("User", specSchema_User)] (some "CreateUserResponse"),
    Frame.objF [] (some "schemas"),
    Frame.objF [("paths", specPaths), ("servers", specServers), ("info", specInfo), ("openapi", Json.str "3.0.3")] (some "components")],
   none⟩

/-- Parser state after chunk 39. -/
def parseStage39 : PState :=
  ⟨PMode.expectKey,
   [Frame.objF [("type", Json.str "string")] none,
    Frame.objF [] (some "name"),
    Frame.objF [("type", Json.str "object")] (some "properties"),
    Frame.objF [("CreateUserResponse", specSchema_CreateUserResponse), ("CreateUserRequest", specSchema_CreateUserRequest), ("SingleResourceResponse", specSchema_SingleResourceResponse), ("ResourcesListResponse", specSchema_ResourcesListResponse), ("SingleUserResponse", specSchema_SingleUserResponse), ("UsersListResponse", specSchema_UsersListResponse), ("Support", specSchema_Support), ("Resource", specSchema_Resource), ("User", specSchema_User)] (some "UpdateUserRequest"),
    Frame.objF [] (some "schemas"),
    Frame.objF [("paths", specPaths), ("servers", specServers), ("info", specInfo), ("openapi", Json.str "3.0.3")] (some "components")],
   none⟩

/-- Parser state after chunk 40. -/
def parseStage40 : PState :=
  ⟨PMode.expectKeyOrEnd,
   [Frame.objF [] none,
    Frame.objF [("name", Json.obj [("type", Json.str "string"), ("description", Json.str "User name")])] (some "job"),
    Frame.objF [("type", Json.str "object")] (some "properties"),
    Frame.objF [("UpdateUserRequest", specSchema_UpdateUserRequest), ("CreateUserResponse", specSchema_CreateUserResponse), ("CreateUserRequest", specSchema_CreateUserRequest), ("SingleResourceResponse", specSchema_SingleResourceResponse), ("ResourcesListResponse", specSchema_ResourcesListResponse), ("SingleUserResponse", specSchema_SingleUserResponse), ("UsersListResponse", specSchema_UsersListResponse), ("Support", specSchema_Support), ("Resource", specSchema_Resource), ("User", specSchema_User)] (some "UpdateUserResponse"),
    Frame.objF [] (some "schemas"),
    Frame.objF [("paths", specPaths), ("servers", specServers), ("info", specInfo), ("openapi", Json.str "3.0.3")] (some "components")],
   none⟩

/-- Parser state after chunk 41. -/
def parseStage41 : PState :=
  ⟨PMode.expectKeyOrEnd,
   [Frame.objF [] none,
    Frame.objF [] (some "email"),
    Frame.objF [("required", Json.arr [Json.str "email", Json.str "password"]), ("type", Json.str "object")] (some "properties"),
    Frame.objF [("UpdateUserResponse", specSchema_UpdateUserResponse), ("UpdateUserRequest", specSchema_UpdateUserRequest), ("CreateUserResponse", specSchema_CreateUserResponse), ("CreateUserRequest", specSchema_CreateUserRequest), ("SingleResourceResponse", specSchema_SingleResourceResponse), ("ResourcesListResponse", specSchema_ResourcesListResponse), ("SingleUserResponse", specSchema_SingleUserResponse), ("UsersListResponse", specSchema_UsersListResponse), ("Support", specSchema_Support), ("Resource", specSchema_Resource), ("User", specSchema_User)] (some "RegisterRequest"),
    Frame.objF [] (some "schemas"),
    Frame.objF [("paths", specPaths), ("servers", specServers), ("info", specInfo), ("openapi", Json.str "3.0.3")] (some "components")],
   none⟩

/-- Parser state after chunk 42. -/
def parseStage42 : PState :=
  ⟨PMode.expectKey,
   [Frame.objF [("type", Json.str "integer")] none,
    Frame.objF [] (some "id"),
    Frame.objF [("type", Json.str "object")] (some "properties"),
    Frame.objF [("RegisterRequest", specSchema_RegisterRequest), ("UpdateUserResponse", specSchema_UpdateUserResponse), ("UpdateUserRequest", specSchema_UpdateUserRequest), ("CreateUserResponse", specSchema_CreateUserResponse), ("CreateUserRequest", specSchema_CreateUserRequest), ("SingleResourceResponse", specSchema_SingleResourceResponse), ("ResourcesListResponse", specSchema_ResourcesListResponse), ("SingleUserResponse", specSchema_SingleUserResponse), ("UsersListResponse", specSchema_UsersListResponse), ("Support", specSchema_Support), ("Resource", specSchema_Resource), ("User", specSchema_User)] (some "RegisterResponse"),
    Frame.objF [] (some "schemas"),
    Frame.objF [("paths", specPaths), ("servers", specServers), ("info", specInfo), ("openapi", Json.str "3.0.3")] (some "components")],
   none⟩

/-- Parser state after chunk 43. -/
def parseStage43 : PState :=
  ⟨PMode.expectKey,
   [Frame.objF [("format", Json.str "email"), ("type", Json.str "string")] none,
    Frame.objF [] (some "email"),
    Frame.objF [("required", Json.arr [Json.str "email", Json.str "password"]), ("type", Json.str "object")] (some "properties"),
    Frame.objF [("RegisterResponse", specSchema_RegisterResponse), ("RegisterRequest", specSchema_RegisterRequest), ("UpdateUserResponse", specSchema_UpdateUserResponse), ("UpdateUserRequest", specSchema_UpdateUserRequest), ("CreateUserResponse", specSchema_CreateUserResponse), ("CreateUserRequest", specSchema_CreateUserRequest), ("SingleResourceResponse", specSchema_SingleResourceResponse), ("ResourcesListResponse", specSchema_ResourcesListResponse), ("SingleUserResponse", specSchema_SingleUserResponse), ("UsersListResponse", specSchema_UsersListResponse), ("Support", specSchema_Support), ("Resource", specSchema_Resource), ("User", specSchema_User)] (some "LoginRequest"),
    Frame.objF [] (some "schemas"),
    Frame.objF [("paths", specPaths), ("servers", specServers), ("info", specInfo), ("openapi", Json.str "3.0.3")] (some "components")],
   none⟩

/-- Parser state after chunk 44. -/
def parseStage44 : PState :=
  ⟨PMode.expectKey,
   [Frame.objF [("LoginResponse", specSchema_LoginResponse), ("LoginRequest", specSchema_RegisterRequest), ("RegisterResponse", specSchema_RegisterResponse), ("RegisterRequest", specSchema_RegisterRequest), ("UpdateUserResponse", specSchema_UpdateUserResponse), ("UpdateUserRequest", specSchema_UpdateUserRequest), ("CreateUserResponse", specSchema_CreateUserResponse), ("CreateUserRequest", specSchema_CreateUserRequest), ("SingleResourceResponse", specSchema_SingleResourceResponse), ("ResourcesListResponse", specSchema_ResourcesListResponse), ("SingleUserResponse", specSchema_SingleUserResponse), ("UsersListResponse", specSchema_UsersListResponse), ("Support", specSchema_Support), ("Resource", specSchema_Resource), ("User", specSchema_User)] none,
    Frame.objF [] (some "schemas"),
    Frame.objF [("paths", specPaths), ("servers", specServers), ("info", specInfo), ("openapi", Json.str "3.0.3")] (some "components")],
   none⟩

/-- Parser state after chunk 45. -/
def parseStage45 : PState :=
  ⟨PMode.afterValue,
   [],
   (some (openapiSpecAst))⟩

/-- Evaluation of the parser over chunk 0. -/
theorem parseStage0_eq :
    List.foldl jstep initPState specChunk0.data = parseStage0 := by rfl

/-- Evaluation of the parser over chunk 1. -/
theorem parseStage1_eq :
    List.foldl jstep parseStage0 specChunk1.data = parseStage1 := by rfl

/-- Evaluation of the parser over chunk 2. -/
theorem parseStage2_eq :
    List.foldl jstep parseStage1 specChunk2.data = parseStage2 := by rfl

/-- Evaluation of the parser over chunk 3. -/
theorem parseStage3_eq :
    List.foldl jstep parseStage2 specChunk3.data = parseStage3 := by rfl

/-- Evaluation of the parser over chunk 4. -/
theorem parseStage4_eq :
    List.foldl jstep parseStage3 specChunk4.data = parseStage4 := by rfl

/-- Evaluation of the parser over chunk 5. -/
theorem parseStage5_eq :
    List.foldl jstep parseStage4 specChunk5.data = parseStage5 := by rfl

/-- Evaluation of the parser over chunk 6. -/
theorem parseStage6_eq :
    List.foldl jstep parseStage5 specChunk6.data = parseStage6 := by rfl

/-- Evaluation of the parser over chunk 7. -/
theorem parseStage7_eq :
    List.foldl jstep parseStage6 specChunk7.data = parseStage7 := by rfl

/-- Evaluation of the parser over chunk 8. -/
theorem parseStage8_eq :
    List.foldl jstep parseStage7 specChunk8.data = parseStage8 := by rfl

/-- Evaluation of the parser over chunk 9. -/
theorem parseStage9_eq :
    List.foldl jstep parseStage8 specChunk9.data = parseStage9 := by rfl

/-- Evaluation of the parser over chunk 10. -/
theorem parseStage10_eq :
    List.foldl jstep parseStage9 specChunk10.data = parseStage10 := by rfl

/-- Evaluation of the parser over chunk 11. -/
theorem parseStage11_eq :
    List.foldl jstep parseStage10 specChunk11.data = parseStage11 := by rfl

/-- Evaluation of the parser over chunk 12. -/
theorem parseStage12_eq :
    List.foldl jstep parseStage11 specChunk12.data = parseStage12 := by rfl

/-- Evaluation of the parser over chunk 13. -/
theorem parseStage13_eq :
    List.foldl jstep parseStage12 specChunk13.data = parseStage13 := by rfl

/-- Evaluation of the parser over chunk 14. -/
theorem parseStage14_eq :
    List.foldl jstep parseStage13 specChunk14.data = parseStage14 := by rfl

/-- Evaluation of the parser over chunk 15. -/
theorem parseStage15_eq :
    List.foldl jstep parseStage14 specChunk15.data = parseStage15 := by rfl

/-- Evaluation of the parser over chunk 16. -/
theorem parseStage16_eq :
    List.foldl jstep parseStage15 specChunk16.data = parseStage16 := by rfl

/-- Evaluation of the parser over chunk 17. -/
theorem parseStage17_eq :
    List.foldl jstep parseStage16 specChunk17.data = parseStage17 := by rfl

/-- Evaluation of the parser over chunk 18. -/
theorem parseStage18_eq :
    List.foldl jstep parseStage17 specChunk18.data = parseStage18 := by rfl

/-- Evaluation of the parser over chunk 19. -/
theorem parseStage19_eq :
    List.foldl jstep parseStage18 specChunk19.data = parseStage19 := by rfl

/-- Evaluation of the parser over chunk 20. -/
theorem parseStage20_eq :
    List.foldl jstep parseStage19 specChunk20.data = parseStage20 := by rfl

/-- Evaluation of the parser over chunk 21. -/
theorem parseStage21_eq :
    List.foldl jstep parseStage20 specChunk21.data = parseStage21 := by rfl

/-- Evaluation of the parser over chunk 22. -/
theorem parseStage22_eq :
    List.foldl jstep parseStage21 specChunk22.data = parseStage22 := by rfl

/-- Evaluation of the parser over chunk 23. -/
theorem parseStage23_eq :
    List.foldl jstep parseStage22 specChunk23.data = parseStage23 := by rfl

/-- Evaluation of the parser over chunk 24. -/
theorem parseStage24_eq :
    List.foldl jstep parseStage23 specChunk24.data = parseStage24 := by rfl

/-- Evaluation of the parser over chunk 25. -/
theorem parseStage25_eq :
    List.foldl jstep parseStage24 specChunk25.data = parseStage25 := by rfl

/-- Evaluation of the parser over chunk 26. -/
theorem parseStage26_eq :
    List.foldl jstep parseStage25 specChunk26.data = parseStage26 := by rfl

/-- Evaluation of the parser over chunk 27. -/
theorem parseStage27_eq :
    List.foldl jstep parseStage26 specChunk27.data = parseStage27 := by rfl

/-- Evaluation of the parser over chunk 28. -/
theorem parseStage28_eq :
    List.foldl jstep parseStage27 specChunk28.data = parseStage28 := by rfl

/-- Evaluation of the parser over chunk 29. -/
theorem parseStage29_eq :
    List.foldl jstep parseStage28 specChunk29.data = parseStage29 := by rfl

/-- Evaluation of the parser over chunk 30. -/
theorem parseStage30_eq :
    List.foldl jstep parseStage29 specChunk30.data = parseStage30 := by rfl

/-- Evaluation of the parser over chunk 31. -/
theorem parseStage31_eq :
    List.foldl jstep parseStage30 specChunk31.data = parseStage31 := by rfl

/-- Evaluation of the parser over chunk 32. -/
theorem parseStage32_eq :
    List.foldl jstep parseStage31 specChunk32.data = parseStage32 := by rfl

/-- Evaluation of the parser over chunk 33. -/
theorem parseStage33_eq :
    List.foldl jstep parseStage32 specChunk33.data = parseStage33 := by rfl

/-- Evaluation of the parser over chunk 34. -/
theorem parseStage34_eq :
    List.foldl jstep parseStage33 specChunk34.data = parseStage34 := by rfl

/-- Evaluation of the parser over chunk 35. -/
theorem parseStage35_eq :
    List.foldl jstep parseStage34 specChunk35.data = parseStage35 := by rfl

/-- Evaluation of the parser over chunk 36. -/
theorem parseStage36_eq :
    List.foldl jstep parseStage35 specChunk36.data = parseStage36 := by rfl

/-- Evaluation of the parser over chunk 37. -/
theorem parseStage37_eq :
    List.foldl jstep parseStage36 specChunk37.data = parseStage37 := by rfl

/-- Evaluation of the parser over chunk 38. -/
theorem parseStage38_eq :
    List.foldl jstep parseStage37 specChunk38.data = parseStage38 := by rfl

/-- Evaluation of the parser over chunk 39. -/
theorem parseStage39_eq :
    List.foldl jstep parseStage38 specChunk39.data = parseStage39 := by rfl

/-- Evaluation of the parser over chunk 40. -/
theorem parseStage40_eq :
    List.foldl jstep parseStage39 specChunk40.data = parseStage40 := by rfl

/-- Evaluation of the parser over chunk 41. -/
theorem parseStage41_eq :
    List.foldl jstep parseStage40 specChunk41.data = parseStage41 := by rfl

/-- Evaluation of the parser over chunk 42. -/
theorem parseStage42_eq :
    List.foldl jstep parseStage41 specChunk42.data = parseStage42 := by rfl

/-- Evaluation of the parser over chunk 43. -/
theorem parseStage43_eq :
    List.foldl jstep parseStage42 specChunk43.data = parseStage43 := by rfl

/-- Evaluation of the parser over chunk 44. -/
theorem parseStage44_eq :
    List.foldl jstep parseStage43 specChunk44.data = parseStage44 := by rfl

/-- Evaluation of the parser over chunk 45. -/
theorem parseStage45_eq :
    List.foldl jstep parseStage44 specChunk45.data = parseStage45 := by rfl

/-- The embedded OpenAPI document string parses to `openapiSpecAst`. -/
theorem parse_spec_string_eq :
    parseJson openapi_spec_string = some openapiSpecAst := by
  unfold parseJson openapi_spec_string
  simp only [String.data_append, List.foldl_append]
  rw [parseStage0_eq, parseStage1_eq, parseStage2_eq, parseStage3_eq, parseStage4_eq, parseStage5_eq, parseStage6_eq, parseStage7_eq, parseStage8_eq, parseStage9_eq, parseStage10_eq, parseStage11_eq, parseStage12_eq, parseStage13_eq, parseStage14_eq, parseStage15_eq, parseStage16_eq, parseStage17_eq, parseStage18_eq, parseStage19_eq, parseStage20_eq, parseStage21_eq, parseStage22_eq, parseStage23_eq, parseStage24_eq, parseStage25_eq, parseStage26_eq, parseStage27_eq, parseStage28_eq, parseStage29_eq, parseStage30_eq, parseStage31_eq, parseStage32_eq, parseStage33_eq, parseStage34_eq, parseStage35_eq, parseStage36_eq, parseStage37_eq, parseStage38_eq, parseStage39_eq, parseStage40_eq, parseStage41_eq, parseStage42_eq, parseStage43_eq, parseStage44_eq, parseStage45_eq]
  rfl


/-- Look up the member named `k` of a JSON object. -/
def lookupMember (j : Json) (k : String) : Option Json :=
  match j with
  | .obj ms => ms.lookup k
  | _ => none

/-- Does the character list `p` begin the character list `s`? -/
def listStarts : List Char → List Char → Bool
  | [], _ => true
  | _ :: _, [] => false
  | p :: ps, c :: cs => p == c && listStarts ps cs

/-- Does the string `p` begin the string `s`? -/
def strStarts (p s : String) : Bool := listStarts p.data s.data

/-- Is `s` one of the HTTP method keys an OpenAPI path item may carry? -/
def isHttpMethod (s : String) : Bool :=
  ["get", "put", "post", "delete", "options", "head", "patch", "trace"].contains s

/-- Structural check of an OpenAPI operation object: it carries the required
nonempty `responses` object. -/
def operationOk (op : Json) : Bool :=
  match lookupMember op "responses" with
  | some (.obj rs) => !rs.isEmpty
  | _ => false

/-- Structural check of an OpenAPI path item: a JSON object whose HTTP-method
entries are each valid operations. -/
def pathItemOk (item : Json) : Bool :=
  match item with
  | .obj ms => ms.all fun m => !(isHttpMethod m.1) || operationOk m.2
  | _ => false

/-- Structural check of an OpenAPI `info` object: the required `title` and
`version` members are present as strings. -/
def infoOk (info : Json) : Bool :=
  (match lookupMember info "title" with | some (.str _) => true | _ => false) &&
  (match lookupMember info "version" with | some (.str _) => true | _ => false)

/-- Models the document requirements an OpenAPI 3.0 validator enforces: the
root is a JSON object whose required `openapi` member is a `3.0`-series
version string, whose required `info` object carries `title` and `version`
strings, and whose required `paths` object maps slash-led path templates to
path items whose HTTP-method entries each carry a nonempty `responses`
object. -/
def isValidOpenApi30 (j : Json) : Bool :=
  (match lookupMember j "openapi" with | some (.str v) => strStarts "3.0" v | _ => false) &&
  (match lookupMember j "info" with | some i => infoOk i | _ => false) &&
  (match lookupMember j "paths" with
   | some (.obj ps) => ps.all fun m => strStarts "/" m.1 && pathItemOk m.2
   | _ => false)

/-- Collect the values of all `$ref` members anywhere in a JSON document;
`fuel` bounds the tree depth explored. -/
def collectRefsF : Nat → Json → List String
  | 0, _ => []
  | fuel + 1, j =>
    match j with
    | .obj ms =>
      ms.foldr (fun m acc =>
        (if m.1 == "$ref" then
          match m.2 with
          | .str r => [r]
          | _ => []
         else []) ++ collectRefsF fuel m.2 ++ acc) []
    | .arr xs => xs.foldr (fun x acc => collectRefsF fuel x ++ acc) []
    | _ => []

/-- Collect the values of all `$ref` members anywhere in a JSON document
(the fuel of 64 exceeds any nesting depth arising here). -/
def collectRefs (j : Json) : List String := collectRefsF 64 j

/-- The names of the schemas defined under `components/schemas`. -/
def schemaNames (j : Json) : List String :=
  match lookupMember j "components" with
  | some c =>
    match lookupMember c "schemas" with
    | some (.obj ms) => ms.map Prod.fst
    | _ => []
  | _ => []

/-- Does the reference string `r` point at a schema defined under the
document's `components/schemas` section? -/
def refResolves (j : Json) (r : String) : Bool :=
  (schemaNames j).any fun n => r == "#/components/schemas/" ++ n

/-- Does every `$ref` in the document resolve to a defined schema component? -/
def allRefsResolve (j : Json) : Bool :=
  (collectRefs j).all (refResolves j)

/-- The path templates defined by the document's `paths` object, in document
order. -/
def specPathNames (j : Json) : Option (List String) :=
  match lookupMember j "paths" with
  | some (.obj ms) => some (ms.map Prod.fst)
  | _ => none

/-- The document's `servers` member. -/
def serversOfSpec (j : Json) : Option Json := lookupMember j "servers"

/-- Application name constant (agent.py line 45). -/
def APP_NAME : String := "combined_openapi_mcp_app"

/-- User id constant (line 46). -/
def USER_ID : String := "user_combined_1"

/-- Session id (line 47): the fixed text with the process's fresh UUID4
rendering appended; the UUID is an input of the model. -/
def SESSION_ID (uuid : String) : String := "session_combined_" ++ uuid

/-- Agent name constant (line 48). -/
def AGENT_NAME : String := "combined_assistant_agent"

/-- Model identifier constant (line 49). -/
def GEMINI_MODEL : String := "gemini-2.5-flash"

/-- Target folder for the MCP filesystem server (line 52): since the second
argument of `os.path.join` is absolute, Python discards the first component
and the join returns the second argument unchanged; `os.path.abspath` then
leaves this absolute path as it is. -/
def TARGET_FOLDER_PATH : String := "/home/cetec/AIProjects/adk_openapi/adk_test"

/-- A tool adapter attached to the agent: either the OpenAPI toolset built
from a spec string (lines 753-756) or the MCP stdio toolset built from a
launch command and argument list (lines 759-770). -/
inductive Toolset where
  | openapi (spec_str : String) (spec_str_type : String)
  | mcp (command : String) (args : List String)

/-- The OpenAPI toolset built from the embedded document (lines 753-756). -/
def users_toolset : Toolset := .openapi openapi_spec_string "json"

/-- The MCP filesystem toolset and its subprocess launch command
(lines 759-770). -/
def filesystem_toolset : Toolset :=
  .mcp "npx" ["-y", "@modelcontextprotocol/server-filesystem", TARGET_FOLDER_PATH]

/-- The agent object's constructor arguments (lines 773-798). -/
structure LlmAgent where
  name : String
  model : String
  tools : List Toolset
  instruction : String
  description : String

/-- The combined agent definition (lines 773-798). -/
def root_agent : LlmAgent :=
  { name := AGENT_NAME
    model := GEMINI_MODEL
    tools := [users_toolset, filesystem_toolset]
    instruction := "You are a versatile assistant that can:

    1. MANAGE WEATHER via API:
       - List available users and resources
       - Create new users
       - Update existing users
       - Get details for specific users
       - List resources and their details
       - Register and login users
       - Handle delayed responses for testing purposes
       - Manage weather alerts (if applicable)

    2. MANAGE FILES in the filesystem:
       - List directories and files
       - Read file contents
       - Navigate through folders
    When there is a request about users use the users_tools, without API KEY or any other credential.
    Remember the users actions dont require authentication.
    When the user asks about files, folders, or filesystem operations, use the filesystem tools.
    "
    description := "A combined assistant that manages both users via API and files via filesystem." }

/-- The message raised at lines 38-39 when the credential is missing. -/
def google_api_key_error : String :=
  "GOOGLE_API_KEY no encontrada en las variables de entorno. Asegúrate de que esté definida en tu archivo .env"

/-- Construction work the module top level performs after the credential
check passes (lines 42-798). -/
inductive InitStep where
  | setEnvGoogleApiKey
  | buildOpenApiToolset
  | buildMcpToolset
  | buildAgent

/-- The objects the module owns once the top level has run. -/
structure ModuleState where
  google_api_key : String
  users_toolset : Toolset
  filesystem_toolset : Toolset
  root_agent : LlmAgent

/-- Outcome of running the module top level: the raised error message, or
the constructed module state. -/
inductive InitResult where
  | raised (msg : String)
  | ok (st : ModuleState)

/-- The module state constructed when the credential check passes with key
`key`. -/
def moduleStateFor (key : String) : ModuleState :=
  { google_api_key := key
    users_toolset := users_toolset
    filesystem_toolset := filesystem_toolset
    root_agent := root_agent }

/-- The construction steps performed, in order, on the success path. -/
def initSteps : List InitStep :=
  [.setEnvGoogleApiKey, .buildOpenApiToolset, .buildMcpToolset, .buildAgent]

/-- Models the module top level (lines 32-798): read `GOOGLE_API_KEY` from
the environment; raise the ValueError before constructing anything when the
value is absent or empty (Python's `if not google_api_key` is taken for
`None` and for the empty string); otherwise construct the toolsets and the
agent. The second component records which construction steps ran. -/
def moduleInit (env : String → Option String) : InitResult × List InitStep :=
  match env "GOOGLE_API_KEY" with
  | none => (.raised google_api_key_error, [])
  | some key =>
    if key = "" then (.raised google_api_key_error, [])
    else (.ok (moduleStateFor key), initSteps)

/-- One part of a message's content (google.genai types.Part). -/
structure Part where
  text : String

/-- A message content: a role and a list of parts (types.Content). -/
structure Content where
  role : String
  parts : List Part

/-- A function call reported by a response event. -/
structure FunctionCall where
  name : String
  args : String

/-- A function response reported by a response event. -/
structure FunctionResponse where
  name : String

/-- One response event, carrying the fields agent.py reads (lines 829-836):
its function calls, its function responses, whether it is the final
response, and its content. -/
structure Event where
  function_calls : List FunctionCall
  function_responses : List FunctionResponse
  is_final_response : Bool
  content : Option Content

/-- How one `runner.run_async` call behaves: it yields `events` and then
either finishes normally or raises an exception rendered as `exn`. -/
inductive RunOutcome where
  | ok (events : List Event)
  | raises (events : List Event) (exn : String)

/-- The arguments handed to `runner.run_async` (lines 824-828). -/
structure RunnerCall where
  user_id : String
  session_id : String
  new_message : Content

/-- One console line the prompt-processing function prints. -/
inductive Output where
  | header
  | queryLine (q : String)
  | agentAction (name : String) (args : String)
  | toolResponse (name : String)
  | finalResponse (text : String)
  | errorLine (exn : String)
  | traceDump
  | dashes

/-- The message content built from a query (line 820): role `user` and one
part holding exactly the query text. -/
def buildContent (query : String) : Content :=
  { role := "user", parts := [{ text := query }] }

/-- The `run_async` invocation for a query (lines 824-828). -/
def runnerCallFor (uuid query : String) : RunnerCall :=
  { user_id := USER_ID, session_id := SESSION_ID uuid, new_message := buildContent query }

/-- The initial value of `final_response_text` (line 821). -/
def defaultFinalText : String := "Agent did not provide a final text response."

/-- Process one event of the `async for` body (lines 829-836): print the
first function call, else the first function response, else on a final
response with nonempty content parts remember its first part's stripped
text. Returns the printed lines and the updated `final_response_text`. -/
def processEvent (finalText : String) (e : Event) : List Output × String :=
  match e.function_calls with
  | c :: _ => ([.agentAction c.name c.args], finalText)
  | [] =>
    match e.function_responses with
    | r :: _ => ([.toolResponse r.name], finalText)
    | [] =>
      if e.is_final_response then
        match e.content with
        | some ct =>
          match ct.parts with
          | p :: _ => ([], p.text.trim)
          | [] => ([], finalText)
        | none => ([], finalText)
      else ([], finalText)

/-- Process a sequence of events, threading `final_response_text`. -/
def processEvents (finalText : String) : List Event → List Output × String
  | [] => ([], finalText)
  | e :: rest =>
    let r := processEvent finalText e
    let r2 := processEvents r.2 rest
    (r.1 ++ r2.1, r2.2)

/-- Models `call_combined_agent_async` (lines 816-844): print the banner and
the query, submit the query's content to the runner, consume its events, and
print the final response; any exception raised while consuming the events is
caught, printed with a traceback, and not re-raised, so the function always
returns and the caller continues. -/
def call_combined_agent_async (runner : RunnerCall → RunOutcome) (uuid query : String) :
    List Output :=
  [.header, .queryLine query] ++
    (match runner (runnerCallFor uuid query) with
     | .ok evs =>
       let r := processEvents defaultFinalText evs
       r.1 ++ [.finalResponse r.2]
     | .raises evs exn =>
       let r := processEvents defaultFinalText evs
       r.1 ++ [.errorLine exn, .traceDump]) ++
    [.dashes]

/-- One awaited prompt submission: the `run_async` invocation it hands the
runner, and the console lines it produces. -/
structure PromptRun where
  call : RunnerCall
  outputs : List Output

/-- Run one prompt through `call_combined_agent_async`. -/
def runPrompt (runner : RunnerCall → RunOutcome) (uuid query : String) : PromptRun :=
  { call := runnerCallFor uuid query
    outputs := call_combined_agent_async runner uuid query }

/-- The literal prompt strings the demo loop submits, in source order
(lines 852-863). -/
def demoPrompts : List String :=
  ["Show me available pets in the store",
   "Add a new cat named \x27Whiskers\x27 to the store",
   "Get details for pet ID 456",
   "List the files in the current directory",
   "What files are available to read?",
   "Create a pet named \x27Buddy\x27 and then show me what files I have"]

/-- Models `run_combined_example` (lines 847-863): each prompt submission is
awaited to completion before the next one starts, so the runs form this
sequence. -/
def run_combined_example (runner : RunnerCall → RunOutcome) (uuid : String) :
    List PromptRun :=
  [runPrompt runner uuid "Show me available pets in the store",
   runPrompt runner uuid "Add a new cat named \x27Whiskers\x27 to the store",
   runPrompt runner uuid "Get details for pet ID 456",
   runPrompt runner uuid "List the files in the current directory",
   runPrompt runner uuid "What files are available to read?",
   runPrompt runner uuid "Create a pet named \x27Buddy\x27 and then show me what files I have"]

/-- The console lines of the whole demo run, in order. -/
def fullOutputTrace (runner : RunnerCall → RunOutcome) (uuid : String) : List Output :=
  ((run_combined_example runner uuid).map PromptRun.outputs).flatten

example : parseJson "  \x7b \"a\": [1, 2.5, -3e2, true, null], \"b\": \"x\\n\x7d\" \x7d " =
    some (.obj [("a", .arr [.num 1 0, .num 25 1, .num (-3) (-2), .bool true, .null]),
                ("b", .str "x\n\x7d")]) := by rfl

example : parseJson "[1, 2" = none := by rfl

example : parseJson "01" = none := by rfl

example : parseJson "\x7b\"a\":1,\x7d" = none := by rfl

example : parseJson "[]" = some (.arr []) := by rfl

example : parseJson "\x7b\x7d" = some (.obj []) := by rfl

example : parseJson "\"\\u0041b\"" = some (.str "Ab") := by rfl

example : parseJson "\x7b\"a\":\x7b\"b\":[true,false]\x7d\x7d" =
    some (.obj [("a", .obj [("b", .arr [.bool true, .bool false])])]) := by rfl

example : isValidOpenApi30 (.obj [("openapi", .str "3.0.3"),
    ("info", .obj [("title", .str "t"), ("version", .str "1")]),
    ("paths", .obj [])]) = true := by rfl

example : isValidOpenApi30 (.obj [("openapi", .str "2.0"),
    ("info", .obj [("title", .str "t"), ("version", .str "1")]),
    ("paths", .obj [])]) = false := by rfl

/-- Claim C1 (counterexample): the demo loop does not submit seven prompts:
for a concrete runner, `run_combined_example` performs six prompt
submissions, not seven. -/
theorem c1_seven_prompts_false :
    (run_combined_example (fun _ => RunOutcome.ok []) "uuid-0").length = 6 ∧
    (run_combined_example (fun _ => RunOutcome.ok []) "uuid-0").length ≠ 7 := by
  exact ⟨rfl, by decide⟩

/-- Claim C1 (amended): the demo loop submits exactly six literal prompt
strings; for each of them, in source order, it submits the prompt to the
runner, consumes the resulting response events, and produces that prompt's
printed lines before moving to the next prompt. -/
theorem c1_six_prompts_in_order (runner : RunnerCall → RunOutcome) (uuid : String) :
    demoPrompts.length = 6 ∧
    run_combined_example runner uuid = demoPrompts.map (runPrompt runner uuid) ∧
    (∀ q, (runPrompt runner uuid q).call = runnerCallFor uuid q ∧
          (runPrompt runner uuid q).outputs = call_combined_agent_async runner uuid q) :=
  ⟨rfl, rfl, fun _ => ⟨rfl, rfl⟩⟩

/-- Claim C2: when `GOOGLE_API_KEY` is unset the module top level raises the
descriptive error with no construction step performed (no toolset, agent,
session or runner is built); when it is set to a nonempty value, no error is
raised and the module state is constructed. -/
theorem c2_missing_credential_aborts (env : String → Option String) :
    (env "GOOGLE_API_KEY" = none → moduleInit env = (.raised google_api_key_error, [])) ∧
    (∀ s, env "GOOGLE_API_KEY" = some s → s ≠ "" →
      moduleInit env = (.ok (moduleStateFor s), initSteps)) := by
  constructor
  · intro h
    simp [moduleInit, h]
  · intro s hs hne
    simp [moduleInit, hs, hne]

/-- Witness for claim C2 at two concrete environments. -/
theorem c2_missing_credential_aborts_witness :
    moduleInit (fun _ => none) = (.raised google_api_key_error, []) ∧
    moduleInit (fun _ => some "test-key") = (.ok (moduleStateFor "test-key"), initSteps) :=
  ⟨(c2_missing_credential_aborts (fun _ => none)).1 rfl,
   (c2_missing_credential_aborts (fun _ => some "test-key")).2 "test-key" rfl (by decide)⟩

/-- Claim C3: every prompt of the demo loop is submitted exactly once, in
order, whatever the runner does (so an exception in one prompt's processing
neither retries it nor aborts the remaining prompts), and when the runner
raises during a prompt, that prompt's processing ends with the error line
and the traceback instead of propagating the exception. -/
theorem c3_exception_contained (runner : RunnerCall → RunOutcome) (uuid : String) :
    ((run_combined_example runner uuid).map PromptRun.call =
      demoPrompts.map (runnerCallFor uuid)) ∧
    (∀ q evs exn, runner (runnerCallFor uuid q) = .raises evs exn →
      call_combined_agent_async runner uuid q =
        [.header, .queryLine q] ++ (processEvents defaultFinalText evs).1 ++
          [.errorLine exn, .traceDump, .dashes]) := by
  refine ⟨rfl, fun q evs exn h => ?_⟩
  unfold call_combined_agent_async
  rw [h]
  simp

/-- Witness for claim C3 with a runner that always raises. -/
theorem c3_exception_contained_witness :
    call_combined_agent_async (fun _ => RunOutcome.raises [] "boom") "uuid-0"
        "Show me available pets in the store" =
      [Output.header, Output.queryLine "Show me available pets in the store"] ++
        (processEvents defaultFinalText []).1 ++
        [Output.errorLine "boom", Output.traceDump, Output.dashes] :=
  (c3_exception_contained (fun _ => RunOutcome.raises [] "boom") "uuid-0").2
    "Show me available pets in the store" [] "boom" rfl

/-- Claim C4: the embedded OpenAPI document string is valid JSON, and the
parsed document passes the OpenAPI 3.0 structural validation. -/
theorem c4_embedded_spec_valid_openapi :
    (parseJson openapi_spec_string).isSome = true ∧
    (parseJson openapi_spec_string).map isValidOpenApi30 = some true := by
  rw [parse_spec_string_eq]
  exact ⟨rfl, by rfl⟩

/-- Claim C5: every one of the 27 `$ref` occurrences anywhere in the embedded
OpenAPI document resolves to a schema defined under the document's
`components/schemas` section. -/
theorem c5_all_refs_resolve :
    (parseJson openapi_spec_string).map allRefsResolve = some true ∧
    (parseJson openapi_spec_string).map (fun j => (collectRefs j).length) = some 27 := by
  rw [parse_spec_string_eq]
  exact ⟨by rfl, by rfl⟩

/-- Claim C6: the embedded document defines exactly the seven path templates
listed, in document order, and declares exactly one server with base URL
`https://reqres.in/api`. -/
theorem c6_paths_and_server :
    (parseJson openapi_spec_string).bind specPathNames =
      some ["/users", "/users/\x7bid\x7d", "/unknown", "/unknown/\x7bid\x7d",
            "/register", "/login", "/users/\x7bdelay\x7d"] ∧
    (parseJson openapi_spec_string).bind serversOfSpec =
      some (.arr [.obj [("url", .str "https://reqres.in/api"),
                        ("description", .str "ReqRes.in API server")]]) := by
  rw [parse_spec_string_eq]
  exact ⟨by rfl, by rfl⟩

/-- Claim C7: for every query submitted in the demo loop, the content handed
to the runner's run method has role `user` and its text parts are exactly
the original query string, unmodified. -/
theorem c7_prompt_passed_unmodified (runner : RunnerCall → RunOutcome) (uuid q : String) :
    (runPrompt runner uuid q).call.new_message.parts.map Part.text = [q] ∧
    (runPrompt runner uuid q).call.new_message.role = "user" ∧
    (runPrompt runner uuid q).call.new_message = buildContent q :=
  ⟨rfl, rfl, rfl⟩

/-- Claim C8: prompt processing is fully sequential: the demo run's console
trace is the concatenation, in prompt order, of each prompt's complete
per-prompt trace, so the event consumption of two different prompts never
interleaves. -/
theorem c8_prompts_sequential (runner : RunnerCall → RunOutcome) (uuid : String) :
    (run_combined_example runner uuid).map PromptRun.outputs =
      demoPrompts.map (call_combined_agent_async runner uuid) ∧
    fullOutputTrace runner uuid =
      (demoPrompts.map (call_combined_agent_async runner uuid)).flatten :=
  ⟨rfl, rfl⟩

/-- Claim C9: the agent object is constructed with exactly two tool adapters
attached: the OpenAPI toolset built from the embedded document, then the MCP
filesystem toolset, and no others. -/
theorem c9_agent_has_two_toolsets :
    root_agent.tools = [users_toolset, filesystem_toolset] ∧
    root_agent.tools.length = 2 ∧
    users_toolset = Toolset.openapi openapi_spec_string "json" ∧
    filesystem_toolset =
      Toolset.mcp "npx" ["-y", "@modelcontextprotocol/server-filesystem", TARGET_FOLDER_PATH] :=
  ⟨rfl, rfl, rfl, rfl⟩

/-- Claim C10: the startup credential check raises the same ValueError both
when `GOOGLE_API_KEY` is absent and when it is set to the empty string,
before any construction work. -/
theorem c10_empty_credential_aborts (env : String → Option String)
    (h : env "GOOGLE_API_KEY" = none ∨ env "GOOGLE_API_KEY" = some "") :
    moduleInit env = (.raised google_api_key_error, []) := by
  rcases h with h | h <;> simp [moduleInit, h]

/-- Witness for claim C10 at the empty-string environment. -/
theorem c10_empty_credential_aborts_witness :
    moduleInit (fun _ => some "") = (.raised google_api_key_error, []) :=
  c10_empty_credential_aborts (fun _ => some "") (Or.inr rfl)

end AdkAgent
